import Mathlib

/-!
Verification development for the encomos customer-service repository
(multi-tenant CRM microservice: customers, vehicles, customer notes over
PostgreSQL with per-tenant row-level security).

The Go source is shallowly embedded:

* `model` — the domain structs and pure methods from
  `internal/domain/model/{customer,vehicle,customer_note}.go`.
  Go pointer-typed optional fields (`*string`, `*time.Time`, `*bool`,
  `*int`) become `Option`; `time.Time` becomes an abstract `Time := Nat`
  tick (methods that call `time.Now()` take the current instant as an
  explicit `now` argument); Go's nil-able `map[string]interface{}`
  becomes `Option (List (String × JsonVal))`, with `none` playing the
  role of the nil map.
* `postgres` — the store helpers from the database layer: the nullable
  column wrappers (`NullString`/`StringFromNull` and friends), the
  context tenant carrier, and three complementary models of the
  session-scoped store:
  1. a connection-pool model (`Pool`) in which each pooled statement is
     dispatched to a scheduler-chosen connection carrying its own
     session state — used to analyse on which connection the tenant
     directive lands;
  2. a statement-trace model (`StoreEnv`/`SStmt`) recording which
     statements each store helper attempts and how it reacts when the
     tenant directive itself fails;
  3. a relational-semantics model (`Db`/`RepoM`) interpreting every
     repository operation against an in-memory database with row-level
     tenant scoping, also recording a trace of issued statements.
* `service` / `grpc` — the domain services and the transport decoder,
  built on the models above.

The source files are internally inconsistent about identifier types
(`model.Customer.ID` is `int64` while the services pass `string` ids and
`model.CustomerNote.ID` is `string`); the embedding uses a single
integer `Id` type throughout, which is what the SQL schema joins on.
-/

namespace Encomos

/-- Abstract instant of time (`time.Time`); only equality and ordering
of instants matter to the verified properties. -/
abbrev Time := Nat

/-- Row identifier (`int64` database keys). -/
abbrev Id := Int

/-- Tenant identifier: an opaque UUID-formatted string, as handled by
the database layer (`GetTenantIDFromContext` returns `string`). -/
abbrev TenantId := String

/-- A JSON-compatible value as stored in the `preferences` / `metadata`
JSON columns (`map[string]interface{}` values in Go). -/
inductive JsonVal where
  | str (s : String)
  | num (n : Int)
  | boolean (b : Bool)
  | null
deriving DecidableEq

/-- A decoded JSON object: association list of keys to values. A Go map
value that is the nil map is represented as `none` at use sites. -/
abbrev JsonMap := List (String × JsonVal)

namespace postgres

/-! ### Nullable column wrappers (`db.go` helpers, C9) -/

/-- `sql.NullString`: a string column value plus a validity flag. The Go
zero value is `{String: "", Valid: false}`. -/
structure SqlNullString where
  string : String
  valid : Bool
deriving DecidableEq

/-- `sql.NullTime`. -/
structure SqlNullTime where
  time : Time
  valid : Bool
deriving DecidableEq

/-- `sql.NullInt64`. -/
structure SqlNullInt64 where
  int64 : Int
  valid : Bool
deriving DecidableEq

/-- `func NullString(s *string) sql.NullString`. -/
def NullString : Option String → SqlNullString
  | none => { string := "", valid := false }
  | some s => { string := s, valid := true }

/-- `func StringFromNull(ns sql.NullString) *string`. -/
def StringFromNull (ns : SqlNullString) : Option String :=
  if ns.valid then some ns.string else none

/-- `func NullTime(t *time.Time) sql.NullTime`. -/
def NullTime : Option Time → SqlNullTime
  | none => { time := 0, valid := false }
  | some t => { time := t, valid := true }

/-- `func TimeFromNull(nt sql.NullTime) *time.Time`. -/
def TimeFromNull (nt : SqlNullTime) : Option Time :=
  if nt.valid then some nt.time else none

/-- `func NullInt64(i *int64) sql.NullInt64`. -/
def NullInt64 : Option Int → SqlNullInt64
  | none => { int64 := 0, valid := false }
  | some i => { int64 := i, valid := true }

/-- `func Int64FromNull(ni sql.NullInt64) *int64`. -/
def Int64FromNull (ni : SqlNullInt64) : Option Int :=
  if ni.valid then some ni.int64 else none

end postgres

namespace model

/-! ### Domain model (`internal/domain/model`) -/

/-- `model.Customer` (persisted columns only; the transient
`Vehicles`/`CustomerNotes`/`Stats` slots are loaded on demand by the
service layer and are not part of the row). -/
structure Customer where
  id : Id
  tenantId : TenantId
  firstName : String
  lastName : String
  email : Option String
  phone : Option String
  customerType : String
  companyName : Option String
  taxId : Option String
  address : Option String
  birthday : Option Time
  notes : Option String
  preferences : Option JsonMap
  isActive : Bool
  createdAt : Time
  updatedAt : Time
deriving DecidableEq

/-- `model.CustomerCreate`. -/
structure CustomerCreate where
  tenantId : TenantId
  firstName : String
  lastName : String
  email : Option String
  phone : Option String
  customerType : String
  companyName : Option String
  taxId : Option String
  address : Option String
  birthday : Option Time
  notes : Option String
  preferences : Option JsonMap
deriving DecidableEq

/-- `model.CustomerUpdate`: every field a pointer (absent = `none`). -/
structure CustomerUpdate where
  id : Id
  firstName : Option String
  lastName : Option String
  email : Option String
  phone : Option String
  customerType : Option String
  companyName : Option String
  taxId : Option String
  address : Option String
  birthday : Option Time
  notes : Option String
  preferences : Option JsonMap
  isActive : Option Bool
deriving DecidableEq

/-- `model.CustomerFilter`. -/
structure CustomerFilter where
  search : String
  customerType : String
  activeOnly : Bool
  page : Int
  limit : Int
  sortBy : String
  sortOrder : String
deriving DecidableEq

/-- `model.CustomerSearchFilter`. -/
structure CustomerSearchFilter where
  query : String
  searchFields : List String
  limit : Int
deriving DecidableEq

/-- `model.NewCustomer`: constructor defaults `is_active = true`, stamps
both timestamps to `now`, and replaces a nil preferences map with an
empty one. The row id is assigned later by the database. -/
def NewCustomer (create : CustomerCreate) (now : Time) : Customer :=
  { id := 0
    tenantId := create.tenantId
    firstName := create.firstName
    lastName := create.lastName
    email := create.email
    phone := create.phone
    customerType := create.customerType
    companyName := create.companyName
    taxId := create.taxId
    address := create.address
    birthday := create.birthday
    notes := create.notes
    preferences := some (create.preferences.getD [])
    isActive := true
    createdAt := now
    updatedAt := now }

/-- `Customer.Activate`. -/
def Customer.Activate (c : Customer) (now : Time) : Customer :=
  { c with isActive := true, updatedAt := now }

/-- `Customer.Deactivate`. -/
def Customer.Deactivate (c : Customer) (now : Time) : Customer :=
  { c with isActive := false, updatedAt := now }

/-- `Customer.UpdateFromUpdate`: only non-nil update fields overwrite;
`updated_at` is always stamped to `now`. -/
def Customer.UpdateFromUpdate (c : Customer) (update : CustomerUpdate)
    (now : Time) : Customer :=
  { c with
    firstName := match update.firstName with
      | none => c.firstName
      | some v => v
    lastName := match update.lastName with
      | none => c.lastName
      | some v => v
    email := match update.email with
      | none => c.email
      | some v => some v
    phone := match update.phone with
      | none => c.phone
      | some v => some v
    customerType := match update.customerType with
      | none => c.customerType
      | some v => v
    companyName := match update.companyName with
      | none => c.companyName
      | some v => some v
    taxId := match update.taxId with
      | none => c.taxId
      | some v => some v
    address := match update.address with
      | none => c.address
      | some v => some v
    birthday := match update.birthday with
      | none => c.birthday
      | some v => some v
    notes := match update.notes with
      | none => c.notes
      | some v => some v
    preferences := match update.preferences with
      | none => c.preferences
      | some p => some p
    isActive := match update.isActive with
      | none => c.isActive
      | some v => v
    updatedAt := now }

/-- `model.Vehicle` (persisted columns). -/
structure Vehicle where
  id : Id
  customerId : Id
  make : String
  model : String
  year : Int
  vin : Option String
  licensePlate : Option String
  color : Option String
  engine : Option String
  notes : Option String
  isActive : Bool
  metadata : Option JsonMap
  createdAt : Time
  updatedAt : Time
deriving DecidableEq

/-- `model.VehicleCreate`. -/
structure VehicleCreate where
  customerId : Id
  make : String
  model : String
  year : Int
  vin : Option String
  licensePlate : Option String
  color : Option String
  engine : Option String
  notes : Option String
  metadata : Option JsonMap
deriving DecidableEq

/-- `model.VehicleUpdate`. -/
structure VehicleUpdate where
  id : Id
  make : Option String
  model : Option String
  year : Option Int
  vin : Option String
  licensePlate : Option String
  color : Option String
  engine : Option String
  notes : Option String
  isActive : Option Bool
  metadata : Option JsonMap
deriving DecidableEq

/-- `model.VehicleFilter`. -/
structure VehicleFilter where
  customerId : Id
  search : String
  activeOnly : Bool
  page : Int
  limit : Int
deriving DecidableEq

/-- `model.NewVehicle`. -/
def NewVehicle (create : VehicleCreate) (now : Time) : Vehicle :=
  { id := 0
    customerId := create.customerId
    make := create.make
    model := create.model
    year := create.year
    vin := create.vin
    licensePlate := create.licensePlate
    color := create.color
    engine := create.engine
    notes := create.notes
    isActive := true
    metadata := some (create.metadata.getD [])
    createdAt := now
    updatedAt := now }

/-- `Vehicle.Activate`. -/
def Vehicle.Activate (v : Vehicle) (now : Time) : Vehicle :=
  { v with isActive := true, updatedAt := now }

/-- `Vehicle.Deactivate`. -/
def Vehicle.Deactivate (v : Vehicle) (now : Time) : Vehicle :=
  { v with isActive := false, updatedAt := now }

/-- `Vehicle.UpdateFromUpdate`. -/
def Vehicle.UpdateFromUpdate (v : Vehicle) (update : VehicleUpdate)
    (now : Time) : Vehicle :=
  { v with
    make := match update.make with
      | none => v.make
      | some x => x
    model := match update.model with
      | none => v.model
      | some x => x
    year := match update.year with
      | none => v.year
      | some x => x
    vin := match update.vin with
      | none => v.vin
      | some x => some x
    licensePlate := match update.licensePlate with
      | none => v.licensePlate
      | some x => some x
    color := match update.color with
      | none => v.color
      | some x => some x
    engine := match update.engine with
      | none => v.engine
      | some x => some x
    notes := match update.notes with
      | none => v.notes
      | some x => some x
    isActive := match update.isActive with
      | none => v.isActive
      | some x => x
    metadata := match update.metadata with
      | none => v.metadata
      | some m => some m
    updatedAt := now }

/-- The error type of the model validators (`model.ValidationError`,
carrying field and message). -/
structure ValidationError where
  field : String
  message : String
deriving DecidableEq

/-- `Vehicle.ValidateVIN`: an absent or empty VIN passes; otherwise the
VIN must have exactly 17 characters and contain none of the letters
I, O, Q. -/
def Vehicle.ValidateVIN (v : Vehicle) : Option ValidationError :=
  match v.vin with
  | none => none
  | some vin =>
    if vin = "" then none
    else if vin.length ≠ 17 then
      some { field := "vin"
             message := "VIN debe tener exactamente 17 caracteres" }
    else if vin.toList.any (fun ch => "IOQ".toList.any (fun p => ch = p)) then
      some { field := "vin"
             message := "VIN no puede contener las letras I, O o Q" }
    else none

/-- `model.CustomerNote` (persisted columns). The source declares the
note ids as strings; the embedding uses the shared integer `Id`, which
is what the SQL join `cn.customer_id = c.id` requires. -/
structure CustomerNote where
  id : Id
  customerId : Id
  staffId : String
  staffName : String
  note : String
  type : String
  createdAt : Time
deriving DecidableEq

/-- `model.CustomerNoteCreate`. -/
structure CustomerNoteCreate where
  customerId : Id
  staffId : String
  staffName : String
  note : String
  type : String
deriving DecidableEq

/-- `model.CustomerNoteFilter`. -/
structure CustomerNoteFilter where
  customerId : Id
  type : String
  dateFrom : Option Time
  dateTo : Option Time
  page : Int
  limit : Int
deriving DecidableEq

/-- `model.NewCustomerNote`: defaults the type to `general` when
empty. -/
def NewCustomerNote (create : CustomerNoteCreate) (now : Time) :
    CustomerNote :=
  { id := 0
    customerId := create.customerId
    staffId := create.staffId
    staffName := create.staffName
    note := create.note
    type := if create.type = "" then "general" else create.type
    createdAt := now }

end model

namespace postgres

/-! ### Tenant context carrier (`db.go`) -/

/-- A call context, as far as the database layer can observe it: either
a tenant identifier was attached under `TenantIDKey` (by
`WithTenantID`), or not. -/
abbrev Context := Option TenantId

/-- `postgres.WithTenantID`: attaching a tenant produces a child
context carrying it (the parent is unmodified — contexts are values). -/
def WithTenantID (_parent : Context) (tenantID : TenantId) : Context :=
  some tenantID

/-- `postgres.GetTenantID`: the comma-ok lookup of the tenant value. -/
def GetTenantID (ctx : Context) : TenantId × Bool :=
  match ctx with
  | some t => (t, true)
  | none => ("", false)

/-- `postgres.GetTenantIDFromContext`: lookup that fails with the
missing-tenant error when no tenant was attached. -/
def GetTenantIDFromContext (ctx : Context) : Except String TenantId :=
  let (tenantID, ok) := GetTenantID ctx
  if ok then Except.ok tenantID
  else Except.error "tenant ID not found in context"

/-! ### Connection-pool model of the session-scoped store (C1)

`db.SetTenantID` issues the `SET app.current_tenant_id` directive via
the pool-level `db.ExecContext`, and `ExecWithTenant`,
`QueryWithTenant` and `QueryRowWithTenant` then issue the actual query
via a second independent pool-level call. Under `database/sql`
semantics each pool-level statement is served by whichever connection
the pool hands out for that one statement. The model makes the pool's
choice explicit as a schedule. -/

/-- One pooled connection: its session state is the tenant directive
currently set on it, if any. -/
structure Conn where
  sessionTenant : Option TenantId
deriving DecidableEq

/-- A connection pool: the session states of its connections. -/
structure Pool where
  conns : List Conn
deriving DecidableEq

/-- Pool-level execution of the tenant directive (`db.SetTenantID`):
the pool serves the statement from connection `i`, whose session state
is updated. -/
def Pool.execSetTenant (p : Pool) (i : Nat) (t : TenantId) : Pool :=
  { conns := p.conns.set i { sessionTenant := some t } }

/-- Pool-level execution of an ordinary statement on connection `i`:
the result of the query is governed by the tenant directive the serving
connection carries at that moment, which this function returns. -/
def Pool.execQuery (p : Pool) (i : Nat) : Option TenantId :=
  match p.conns[i]? with
  | some c => c.sessionTenant
  | none => none

/-- Outcome of one `ExecWithTenant`-style call under the pool model. -/
structure PoolCallResult where
  pool : Pool
  setConn : Nat
  queryConn : Nat
  directiveSeenByQuery : Option TenantId
deriving DecidableEq

/-- `db.ExecWithTenant` (equally `QueryWithTenant` /
`QueryRowWithTenant`) under pool semantics: first `db.SetTenantID`
(a pool-level statement), then the query (a second pool-level
statement). `sched n` is the connection the pool picks for the n-th
statement of this call; nothing in the code ties the two picks
together. -/
def ExecWithTenantOnPool (p : Pool) (sched : Nat → Nat) (t : TenantId) :
    PoolCallResult :=
  let setConn := sched 0
  let p1 := p.execSetTenant setConn t
  let queryConn := sched 1
  { pool := p1
    setConn := setConn
    queryConn := queryConn
    directiveSeenByQuery := p1.execQuery queryConn }

/-! ### Statement-trace model of the store (C3, C4)

This model records which statements each store helper attempts, in
order, and how each helper reacts when the tenant directive (or BEGIN,
or COMMIT) fails. -/

/-- A statement as seen by the database. -/
inductive SStmt where
  | set (t : TenantId)
  | sql (tag : String)
  | beginTx
  | commit
  | rollback
deriving DecidableEq

/-- Failure switches: which statements the database reports as
failing. -/
structure StoreEnv where
  setFails : Bool
  beginFails : Bool
  queryFails : Bool
  commitFails : Bool
deriving DecidableEq

/-- `db.SetTenantID` in the trace model. -/
def SetTenantIDTr (env : StoreEnv) (t : TenantId) :
    Except String Unit × List SStmt :=
  ((if env.setFails then Except.error "set tenant failed"
    else Except.ok ()), [SStmt.set t])

/-- `db.ExecWithTenant`: sets the tenant, aborting on directive
failure, then executes the query. -/
def ExecWithTenant (env : StoreEnv) (t : TenantId) (q : String) :
    Except String Unit × List SStmt :=
  match SetTenantIDTr env t with
  | (Except.error e, tr) => (Except.error e, tr)
  | (Except.ok _, tr) =>
    ((if env.queryFails then Except.error "exec failed"
      else Except.ok ()), tr ++ [SStmt.sql q])

/-- `db.QueryWithTenant`: same contract as `ExecWithTenant`. -/
def QueryWithTenant (env : StoreEnv) (t : TenantId) (q : String) :
    Except String Unit × List SStmt :=
  match SetTenantIDTr env t with
  | (Except.error e, tr) => (Except.error e, tr)
  | (Except.ok _, tr) =>
    ((if env.queryFails then Except.error "query failed"
      else Except.ok ()), tr ++ [SStmt.sql q])

/-- `db.QueryRowWithTenant`: the directive result is discarded
(`*sql.Row` cannot carry it), and the query is issued regardless; an
error surfaces only at scan time. -/
def QueryRowWithTenant (env : StoreEnv) (t : TenantId) (q : String) :
    Except String Unit × List SStmt :=
  let (_, tr) := SetTenantIDTr env t
  ((if env.queryFails then Except.error "scan failed"
    else Except.ok ()), tr ++ [SStmt.sql q])

/-- `db.BeginTxWithTenant`: BEGIN, then the tenant directive inside the
transaction; on directive failure the transaction is rolled back and
the error reported. -/
def BeginTxWithTenant (env : StoreEnv) (t : TenantId) :
    Except String Unit × List SStmt :=
  if env.beginFails then (Except.error "begin failed", [SStmt.beginTx])
  else if env.setFails then
    (Except.error "failed to set tenant ID: set tenant failed",
     [SStmt.beginTx, SStmt.set t, SStmt.rollback])
  else (Except.ok (), [SStmt.beginTx, SStmt.set t])

/-- Behaviour of the function a transaction runs: it returns nil,
returns an error, or panics partway through — in each case after
issuing the statements in its own trace. -/
inductive FnOutcome where
  | ok (tr : List SStmt)
  | err (e : String) (tr : List SStmt)
  | panics (tr : List SStmt)
deriving DecidableEq

/-- How a `TransactionWithTenant` call ends, as seen by its caller: a
normal return (nil or error) or an unrecovered panic unwinding through
it. -/
inductive TxResult where
  | ok
  | err (e : String)
  | panicked
deriving DecidableEq

/-- `db.TransactionWithTenant`: begin + directive via
`BeginTxWithTenant`, run `fn`, commit on nil, roll back on a returned
error. The helper installs no deferred recovery, so a panic in `fn`
unwinds through it without any further statement. -/
def TransactionWithTenant (env : StoreEnv) (t : TenantId)
    (fn : FnOutcome) : TxResult × List SStmt :=
  match BeginTxWithTenant env t with
  | (Except.error e, tr) => (TxResult.err e, tr)
  | (Except.ok _, tr) =>
    match fn with
    | FnOutcome.err e ftr => (TxResult.err e, tr ++ ftr ++ [SStmt.rollback])
    | FnOutcome.ok ftr =>
      ((if env.commitFails then TxResult.err "commit failed"
        else TxResult.ok), tr ++ ftr ++ [SStmt.commit])
    | FnOutcome.panics ftr => (TxResult.panicked, tr ++ ftr)

/-- Whether a trace contains an ordinary (non-directive) SQL
statement. -/
def traceHasSql (tr : List SStmt) : Bool :=
  tr.any (fun s => match s with
    | SStmt.sql _ => true
    | _ => false)

/-! ### Relational-semantics model of the repositories (C2, C5, C8)

An in-memory image of the three tables. Row-level security restricts
every query to rows of the session tenant: `customers` rows carry
`tenant_id` directly; `vehicles` and `customer_notes` rows are scoped
through their mandatory `INNER JOIN customers c ON ... = c.id`. Each
repository operation is a function from the database to a result, the
updated database, and the trace of statements it issued (each store
call issues the tenant directive followed by its query). -/

/-- The persistent state: the three tables plus the id sequences that
serve the `RETURNING id` clauses. -/
structure Db where
  customers : List model.Customer
  vehicles : List model.Vehicle
  notes : List model.CustomerNote
  nextCustomerId : Id
  nextVehicleId : Id
  nextNoteId : Id
deriving DecidableEq

/-- Result type of a repository operation: outcome, updated database,
issued statements. -/
abbrev RepoM (α : Type) := Db → Except String α × Db × List SStmt

/-- The customers visible to a session scoped to tenant `t` (the
row-level policy `tenant_id = app.current_tenant_id`). -/
def Db.visibleCustomers (db : Db) (t : TenantId) : List model.Customer :=
  db.customers.filter (fun c => c.tenantId == t)

/-- The vehicles visible to tenant `t`: every vehicle query joins
`INNER JOIN customers c ON v.customer_id = c.id`, so a vehicle row is
visible exactly when its owning customer is. -/
def Db.visibleVehicles (db : Db) (t : TenantId) : List model.Vehicle :=
  db.vehicles.filter
    (fun v => (db.visibleCustomers t).any (fun c => c.id == v.customerId))

/-- The notes visible to tenant `t`, scoped through the same join. -/
def Db.visibleNotes (db : Db) (t : TenantId) : List model.CustomerNote :=
  db.notes.filter
    (fun n => (db.visibleCustomers t).any (fun c => c.id == n.customerId))

/-- The common prologue of every repository operation:
`tenantID, err := GetTenantIDFromContext(ctx)`, returning the error —
before anything touches the store — when the context has no tenant. -/
def withTenant (ctx : Context) (body : TenantId → RepoM α) : RepoM α :=
  fun db =>
    match GetTenantIDFromContext ctx with
    | Except.error e => (Except.error e, db, [])
    | Except.ok t => body t db

/-- Trace of one store call (`QueryRowWithTenant` / `QueryWithTenant` /
`ExecWithTenant`): the tenant directive followed by the query. -/
def qcall (t : TenantId) (tag : String) : List SStmt :=
  [SStmt.set t, SStmt.sql tag]

/-- `a` occurs as a contiguous run at the start of `b`. -/
def charsPrefix : List Char → List Char → Bool
  | [], _ => true
  | _ :: _, [] => false
  | a :: as, b :: bs => a == b && charsPrefix as bs

/-- `needle` occurs as a contiguous run somewhere in the haystack. -/
def charsInfix (needle : List Char) : List Char → Bool
  | [] => charsPrefix needle []
  | c :: rest => charsPrefix needle (c :: rest) || charsInfix needle rest

/-- SQL `field ILIKE percent-search-percent`: case-insensitive
substring match. -/
def ilike (field : String) (search : String) : Bool :=
  charsInfix (search.toList.map Char.toLower) (field.toList.map Char.toLower)

/-- `ILIKE` on a nullable column: NULL matches nothing. -/
def ilikeOpt (field : Option String) (search : String) : Bool :=
  match field with
  | none => false
  | some s => ilike s search

/-- Insert `a` into a list sorted by `le`, keeping earlier elements
first on ties (stable). -/
def insertLe (le : α → α → Bool) (a : α) : List α → List α
  | [] => [a]
  | b :: bs => if le a b then a :: b :: bs else b :: insertLe le a bs

/-- Stable insertion sort: the interpretation of `ORDER BY` (ties keep
row order; the SQL leaves tie order unspecified). -/
def sortByLe (le : α → α → Bool) : List α → List α
  | [] => []
  | a :: as => insertLe le a (sortByLe le as)

/-- `LIMIT` defaulting of the paginated list queries: the filter limit
when positive, else 50. -/
def effectiveLimit (l : Int) : Int := if l ≤ 0 then 50 else l

/-- `OFFSET` of the paginated list queries: `(page-1)*limit` when
`page > 0`, else 0. -/
def effectiveOffset (page limit : Int) : Int :=
  if page > 0 then (page - 1) * limit else 0

/-- One fetched page: `ORDER BY` then `LIMIT limit OFFSET offset`. -/
def pageOf (le : α → α → Bool) (rows : List α) (limit offset : Int) :
    List α :=
  ((sortByLe le rows).drop offset.toNat).take limit.toNat

/-- String `≤` as a Boolean (for ORDER BY on text columns). -/
def strLeB (a b : String) : Bool := decide (a < b) || a == b

/-- ORDER BY on a nullable text column, ascending: non-null values in
order, NULLs last (the PostgreSQL default). -/
def optStrLeB : Option String → Option String → Bool
  | none, none => true
  | none, some _ => false
  | some _, none => true
  | some x, some y => strLeB x y

/-- `first_name, last_name` ascending. -/
def customerNameLe (a b : model.Customer) : Bool :=
  decide (a.firstName < b.firstName) ||
  (a.firstName == b.firstName && strLeB a.lastName b.lastName)

/-- The ORDER BY switch of `customerRepository.List`: default
`created_at DESC`; `sort_by` one of name / created_at / company_name,
ascending unless `sort_order = "desc"`; anything else falls back to the
default. -/
def customerOrderLe (filter : model.CustomerFilter)
    (a b : model.Customer) : Bool :=
  let asc := !(filter.sortOrder == "desc")
  if filter.sortBy == "name" then
    if asc then customerNameLe a b else customerNameLe b a
  else if filter.sortBy == "created_at" then
    if asc then decide (a.createdAt ≤ b.createdAt)
    else decide (b.createdAt ≤ a.createdAt)
  else if filter.sortBy == "company_name" then
    if asc then optStrLeB a.companyName b.companyName
    else optStrLeB b.companyName a.companyName
  else decide (b.createdAt ≤ a.createdAt)

/-- The dynamic WHERE predicate of `customerRepository.List`: search
substring over first/last name, email, company name; exact customer
type; active-only. Absent filter fields impose no condition. -/
def customerMatches (filter : model.CustomerFilter)
    (c : model.Customer) : Bool :=
  (filter.search == "" ||
    (ilike c.firstName filter.search || ilike c.lastName filter.search ||
     ilikeOpt c.email filter.search ||
     ilikeOpt c.companyName filter.search)) &&
  (filter.customerType == "" || c.customerType == filter.customerType) &&
  (!filter.activeOnly || c.isActive)

/-- The scan path of a customer row: every nullable column is read into
its `sql.Null*` wrapper and converted back with the `*FromNull`
helper. -/
def scanCustomer (c : model.Customer) : model.Customer :=
  { c with
    email := StringFromNull (NullString c.email)
    phone := StringFromNull (NullString c.phone)
    companyName := StringFromNull (NullString c.companyName)
    taxId := StringFromNull (NullString c.taxId)
    address := StringFromNull (NullString c.address)
    notes := StringFromNull (NullString c.notes)
    birthday := TimeFromNull (NullTime c.birthday) }

/-! #### customerRepository -/

/-- `customerRepository.Create`: INSERT returning the assigned id; the
row's `tenant_id` is the session tenant, optional columns go through
the nullable wrappers. -/
def customerRepository.Create (ctx : Context)
    (customer : model.Customer) : RepoM model.Customer :=
  withTenant ctx (fun t db =>
    let row : model.Customer :=
      { id := db.nextCustomerId
        tenantId := t
        firstName := customer.firstName
        lastName := customer.lastName
        email := StringFromNull (NullString customer.email)
        phone := StringFromNull (NullString customer.phone)
        customerType := customer.customerType
        companyName := StringFromNull (NullString customer.companyName)
        taxId := StringFromNull (NullString customer.taxId)
        address := StringFromNull (NullString customer.address)
        birthday := TimeFromNull (NullTime customer.birthday)
        notes := StringFromNull (NullString customer.notes)
        preferences := customer.preferences
        isActive := customer.isActive
        createdAt := customer.createdAt
        updatedAt := customer.updatedAt }
    (Except.ok row,
     { db with
       customers := db.customers ++ [row]
       nextCustomerId := db.nextCustomerId + 1 },
     qcall t "INSERT INTO customers"))

/-- `customerRepository.GetByID`: single visible row by id, scanned
through the nullable wrappers; `sql.ErrNoRows` becomes the not-found
error. -/
def customerRepository.GetByID (ctx : Context) (id : Id) :
    RepoM model.Customer :=
  withTenant ctx (fun t db =>
    match (db.visibleCustomers t).find? (fun c => c.id == id) with
    | none =>
      (Except.error ("customer with ID " ++ toString id ++ " not found"),
       db, qcall t "SELECT customer by id")
    | some c =>
      (Except.ok (scanCustomer c), db, qcall t "SELECT customer by id"))

/-- The per-row effect of the customer UPDATE statement: the row with
the updated customer's id that is visible to tenant `t` receives every
column of the SET list (all columns except `tenant_id` and
`created_at`); any other row is untouched. -/
def updCustomerRow (t : TenantId) (customer : model.Customer)
    (r : model.Customer) : model.Customer :=
  if r.id == customer.id && r.tenantId == t then
    { r with
      firstName := customer.firstName
      lastName := customer.lastName
      email := StringFromNull (NullString customer.email)
      phone := StringFromNull (NullString customer.phone)
      customerType := customer.customerType
      companyName := StringFromNull (NullString customer.companyName)
      taxId := StringFromNull (NullString customer.taxId)
      address := StringFromNull (NullString customer.address)
      birthday := TimeFromNull (NullTime customer.birthday)
      notes := StringFromNull (NullString customer.notes)
      preferences := customer.preferences
      isActive := customer.isActive
      updatedAt := customer.updatedAt }
  else r

/-- `customerRepository.Update`: UPDATE of every column except
`tenant_id` and `created_at` on the visible row with the given id;
zero rows affected is the not-found error. -/
def customerRepository.Update (ctx : Context)
    (customer : model.Customer) : RepoM Unit :=
  withTenant ctx (fun t db =>
    let rowsAffected := (db.customers.filter
      (fun r => r.id == customer.id && r.tenantId == t)).length
    let db2 :=
      { db with customers := db.customers.map (updCustomerRow t customer) }
    if rowsAffected == 0 then
      (Except.error
        ("customer with ID " ++ toString customer.id ++ " not found"),
       db2, qcall t "UPDATE customers")
    else (Except.ok (), db2, qcall t "UPDATE customers"))

/-- `customerRepository.Delete`: DELETE of the visible row with the
given id; zero rows affected is the not-found error. -/
def customerRepository.Delete (ctx : Context) (id : Id) : RepoM Unit :=
  withTenant ctx (fun t db =>
    let hit : model.Customer → Bool :=
      fun r => r.id == id && r.tenantId == t
    let rowsAffected := (db.customers.filter hit).length
    let db2 := { db with customers := db.customers.filter (fun r => !hit r) }
    if rowsAffected == 0 then
      (Except.error ("customer with ID " ++ toString id ++ " not found"),
       db2, qcall t "DELETE FROM customers")
    else (Except.ok (), db2, qcall t "DELETE FROM customers"))

/-- `customerRepository.List`: count the rows matching the dynamic
predicate, then fetch one ordered page of them. -/
def customerRepository.list (ctx : Context)
    (filter : model.CustomerFilter) :
    RepoM (List model.Customer × Int) :=
  withTenant ctx (fun t db =>
    let matching := (db.visibleCustomers t).filter (customerMatches filter)
    let total : Int := matching.length
    let limit := effectiveLimit filter.limit
    let offset := effectiveOffset filter.page limit
    let page := pageOf (customerOrderLe filter) matching limit offset
    (Except.ok (page.map scanCustomer, total), db,
     qcall t "SELECT COUNT FROM customers" ++
     qcall t "SELECT customers page"))

/-- Ranking of `customerRepository.Search` results (the ORDER BY CASE):
name substring hits first, then exact email, exact phone, the rest;
ties by first and last name. -/
def searchRank (q : String) (c : model.Customer) : Nat :=
  if ilike c.firstName q || ilike c.lastName q then 1
  else if c.email == some q then 2
  else if c.phone == some q then 3
  else 4

/-- Search result order: rank, then first_name, last_name. -/
def searchRankLe (q : String) (a b : model.Customer) : Bool :=
  decide (searchRank q a < searchRank q b) ||
  (searchRank q a == searchRank q b && customerNameLe a b)

/-- `customerRepository.Search`: OR of the recognised per-field
substring conditions over active rows, ranked, capped at the filter
limit (default 20). An empty query or no recognised field returns the
empty list without touching the store. -/
def customerRepository.Search (ctx : Context)
    (filter : model.CustomerSearchFilter) :
    RepoM (List model.Customer) :=
  withTenant ctx (fun t db =>
    if filter.query == "" then (Except.ok [], db, [])
    else
      let searchFields :=
        if filter.searchFields.isEmpty then
          ["name", "email", "phone", "tax_id"]
        else filter.searchFields
      let conds : List (model.Customer → Bool) :=
        searchFields.filterMap (fun f =>
          if f == "name" then
            some (fun c =>
              ilike c.firstName filter.query ||
              ilike c.lastName filter.query ||
              ilike (c.firstName ++ " " ++ c.lastName) filter.query)
          else if f == "email" then
            some (fun c => ilikeOpt c.email filter.query)
          else if f == "phone" then
            some (fun c => ilikeOpt c.phone filter.query)
          else if f == "tax_id" then
            some (fun c => ilikeOpt c.taxId filter.query)
          else if f == "company_name" then
            some (fun c => ilikeOpt c.companyName filter.query)
          else none)
      if conds.isEmpty then (Except.ok [], db, [])
      else
        let limit := if filter.limit ≤ 0 then 20 else filter.limit
        let matching := (db.visibleCustomers t).filter
          (fun c => conds.any (fun p => p c) && c.isActive)
        let ranked := sortByLe (searchRankLe filter.query) matching
        (Except.ok ((ranked.take limit.toNat).map scanCustomer), db,
         qcall t "SELECT customers search"))

/-- `customerRepository.GetByEmail`. -/
def customerRepository.GetByEmail (ctx : Context) (email : String) :
    RepoM model.Customer :=
  withTenant ctx (fun t db =>
    match (db.visibleCustomers t).find? (fun c => c.email == some email) with
    | none =>
      (Except.error ("customer with email " ++ email ++ " not found"),
       db, qcall t "SELECT customer by email")
    | some c =>
      (Except.ok (scanCustomer c), db, qcall t "SELECT customer by email"))

/-- `customerRepository.GetByTaxID`. -/
def customerRepository.GetByTaxID (ctx : Context) (taxID : String) :
    RepoM model.Customer :=
  withTenant ctx (fun t db =>
    match (db.visibleCustomers t).find? (fun c => c.taxId == some taxID) with
    | none =>
      (Except.error ("customer with tax ID " ++ taxID ++ " not found"),
       db, qcall t "SELECT customer by tax id")
    | some c =>
      (Except.ok (scanCustomer c), db, qcall t "SELECT customer by tax id"))

/-- `customerRepository.ListByType`: delegates to `List`. -/
def customerRepository.ListByType (ctx : Context)
    (customerType : String) (page limit : Int) :
    RepoM (List model.Customer × Int) :=
  customerRepository.list ctx
    { search := "", customerType := customerType, activeOnly := false
      page := page, limit := limit, sortBy := "", sortOrder := "" }

/-- `customerRepository.ListActive`: delegates to `List`. -/
def customerRepository.ListActive (ctx : Context) (page limit : Int) :
    RepoM (List model.Customer × Int) :=
  customerRepository.list ctx
    { search := "", customerType := "", activeOnly := true
      page := page, limit := limit, sortBy := "", sortOrder := "" }

/-- `customerRepository.ListInactive`: its own count + page over
inactive rows, ordered by `updated_at DESC`, with the raw limit (no
defaulting here). -/
def customerRepository.ListInactive (ctx : Context) (page limit : Int) :
    RepoM (List model.Customer × Int) :=
  withTenant ctx (fun t db =>
    let matching := (db.visibleCustomers t).filter (fun c => !c.isActive)
    let total : Int := matching.length
    let offset : Int := if page > 0 then (page - 1) * limit else 0
    let page2 := pageOf
      (fun a b => decide (b.updatedAt ≤ a.updatedAt)) matching limit offset
    (Except.ok (page2.map scanCustomer, total), db,
     qcall t "SELECT COUNT inactive customers" ++
     qcall t "SELECT inactive customers page"))

/-- `customerRepository.Count`. -/
def customerRepository.Count (ctx : Context) : RepoM Int :=
  withTenant ctx (fun t db =>
    (Except.ok ((db.visibleCustomers t).length : Int), db,
     qcall t "SELECT COUNT FROM customers"))

/-- `customerRepository.CountByType`. -/
def customerRepository.CountByType (ctx : Context)
    (customerType : String) : RepoM Int :=
  withTenant ctx (fun t db =>
    (Except.ok
      (((db.visibleCustomers t).filter
          (fun c => c.customerType == customerType)).length : Int),
     db, qcall t "SELECT COUNT customers by type"))

/-- `customerRepository.CountActive`. -/
def customerRepository.CountActive (ctx : Context) : RepoM Int :=
  withTenant ctx (fun t db =>
    (Except.ok
      (((db.visibleCustomers t).filter (fun c => c.isActive)).length : Int),
     db, qcall t "SELECT COUNT active customers"))

/-- `customerRepository.ExistsByEmail`: positive count of visible rows
with that email, optionally excluding one id. -/
def customerRepository.ExistsByEmail (ctx : Context) (email : String)
    (excludeID : Option Id) : RepoM Bool :=
  withTenant ctx (fun t db =>
    let rows := (db.visibleCustomers t).filter (fun c =>
      c.email == some email &&
      (match excludeID with
       | none => true
       | some ex => !(c.id == ex)))
    (Except.ok (decide (0 < rows.length)), db,
     qcall t "SELECT COUNT customers by email"))

/-- `customerRepository.ExistsByTaxID`. -/
def customerRepository.ExistsByTaxID (ctx : Context) (taxID : String)
    (excludeID : Option Id) : RepoM Bool :=
  withTenant ctx (fun t db =>
    let rows := (db.visibleCustomers t).filter (fun c =>
      c.taxId == some taxID &&
      (match excludeID with
       | none => true
       | some ex => !(c.id == ex)))
    (Except.ok (decide (0 < rows.length)), db,
     qcall t "SELECT COUNT customers by tax id"))

/-! #### vehicleRepository -/

/-- The dynamic WHERE predicate of `vehicleRepository.List`: customer
id (only when positive), search substring over make/model/vin/plate,
active-only. -/
def vehicleMatches (filter : model.VehicleFilter)
    (v : model.Vehicle) : Bool :=
  (!(decide (0 < filter.customerId)) ||
    v.customerId == filter.customerId) &&
  (filter.search == "" ||
    (ilike v.make filter.search || ilike v.model filter.search ||
     ilikeOpt v.vin filter.search ||
     ilikeOpt v.licensePlate filter.search)) &&
  (!filter.activeOnly || v.isActive)

/-- `ORDER BY v.year DESC, v.make, v.model`. -/
def vehicleOrderLe (a b : model.Vehicle) : Bool :=
  decide (b.year < a.year) ||
  (a.year == b.year &&
    (decide (a.make < b.make) ||
     (a.make == b.make && strLeB a.model b.model)))

/-- The scan path of a vehicle row (nullable columns through the
wrappers). -/
def scanVehicle (v : model.Vehicle) : model.Vehicle :=
  { v with
    vin := StringFromNull (NullString v.vin)
    licensePlate := StringFromNull (NullString v.licensePlate)
    color := StringFromNull (NullString v.color)
    engine := StringFromNull (NullString v.engine)
    notes := StringFromNull (NullString v.notes) }

/-- The write path of a vehicle INSERT: the row receives the next
sequence id, optional columns go through the nullable wrappers. -/
def mkVehicleRow (id : Id) (v : model.Vehicle) : model.Vehicle :=
  { v with
    id := id
    vin := StringFromNull (NullString v.vin)
    licensePlate := StringFromNull (NullString v.licensePlate)
    color := StringFromNull (NullString v.color)
    engine := StringFromNull (NullString v.engine)
    notes := StringFromNull (NullString v.notes) }

/-- `vehicleRepository.Create`. -/
def vehicleRepository.Create (ctx : Context) (vehicle : model.Vehicle) :
    RepoM model.Vehicle :=
  withTenant ctx (fun t db =>
    let row := mkVehicleRow db.nextVehicleId vehicle
    (Except.ok row,
     { db with
       vehicles := db.vehicles ++ [row]
       nextVehicleId := db.nextVehicleId + 1 },
     qcall t "INSERT INTO vehicles"))

/-- `vehicleRepository.GetByID`. -/
def vehicleRepository.GetByID (ctx : Context) (id : Id) :
    RepoM model.Vehicle :=
  withTenant ctx (fun t db =>
    match (db.visibleVehicles t).find? (fun v => v.id == id) with
    | none =>
      (Except.error ("vehicle with ID " ++ toString id ++ " not found"),
       db, qcall t "SELECT vehicle by id")
    | some v =>
      (Except.ok (scanVehicle v), db, qcall t "SELECT vehicle by id"))

/-- `vehicleRepository.Update`: UPDATE joined against the visible
customers (`FROM customers c WHERE vehicles.customer_id = c.id`); every
column except `customer_id` and `created_at` is set. -/
def vehicleRepository.Update (ctx : Context) (vehicle : model.Vehicle) :
    RepoM Unit :=
  withTenant ctx (fun t db =>
    let hit : model.Vehicle → Bool := fun r =>
      r.id == vehicle.id &&
      (db.visibleCustomers t).any (fun c => c.id == r.customerId)
    let rowsAffected := (db.vehicles.filter hit).length
    let upd : model.Vehicle → model.Vehicle := fun r =>
      if hit r then
        { r with
          make := vehicle.make
          model := vehicle.model
          year := vehicle.year
          vin := StringFromNull (NullString vehicle.vin)
          licensePlate := StringFromNull (NullString vehicle.licensePlate)
          color := StringFromNull (NullString vehicle.color)
          engine := StringFromNull (NullString vehicle.engine)
          notes := StringFromNull (NullString vehicle.notes)
          isActive := vehicle.isActive
          metadata := vehicle.metadata
          updatedAt := vehicle.updatedAt }
      else r
    let db2 := { db with vehicles := db.vehicles.map upd }
    if rowsAffected == 0 then
      (Except.error
        ("vehicle with ID " ++ toString vehicle.id ++ " not found"),
       db2, qcall t "UPDATE vehicles")
    else (Except.ok (), db2, qcall t "UPDATE vehicles"))

/-- `vehicleRepository.Delete`: DELETE `USING customers`. -/
def vehicleRepository.Delete (ctx : Context) (id : Id) : RepoM Unit :=
  withTenant ctx (fun t db =>
    let hit : model.Vehicle → Bool := fun r =>
      r.id == id &&
      (db.visibleCustomers t).any (fun c => c.id == r.customerId)
    let rowsAffected := (db.vehicles.filter hit).length
    let db2 := { db with vehicles := db.vehicles.filter (fun r => !hit r) }
    if rowsAffected == 0 then
      (Except.error ("vehicle with ID " ++ toString id ++ " not found"),
       db2, qcall t "DELETE FROM vehicles")
    else (Except.ok (), db2, qcall t "DELETE FROM vehicles"))

/-- `vehicleRepository.List`: count, then one ordered page. -/
def vehicleRepository.list (ctx : Context)
    (filter : model.VehicleFilter) :
    RepoM (List model.Vehicle × Int) :=
  withTenant ctx (fun t db =>
    let matching := (db.visibleVehicles t).filter (vehicleMatches filter)
    let total : Int := matching.length
    let limit := effectiveLimit filter.limit
    let offset := effectiveOffset filter.page limit
    let page := pageOf vehicleOrderLe matching limit offset
    (Except.ok (page.map scanVehicle, total), db,
     qcall t "SELECT COUNT FROM vehicles" ++
     qcall t "SELECT vehicles page"))

/-- `vehicleRepository.ListByCustomer`: `List` with a customer filter
and limit 100. -/
def vehicleRepository.ListByCustomer (ctx : Context) (customerID : Id) :
    RepoM (List model.Vehicle) :=
  fun db =>
    match vehicleRepository.list ctx
      { customerId := customerID, search := "", activeOnly := false
        page := 0, limit := 100 } db with
    | (Except.error e, db1, tr) => (Except.error e, db1, tr)
    | (Except.ok (vehicles, _), db1, tr) => (Except.ok vehicles, db1, tr)

/-- `vehicleRepository.GetByVIN`. -/
def vehicleRepository.GetByVIN (ctx : Context) (vin : String) :
    RepoM model.Vehicle :=
  withTenant ctx (fun t db =>
    match (db.visibleVehicles t).find? (fun v => v.vin == some vin) with
    | none =>
      (Except.error ("vehicle with VIN " ++ vin ++ " not found"),
       db, qcall t "SELECT vehicle by vin")
    | some v =>
      (Except.ok (scanVehicle v), db, qcall t "SELECT vehicle by vin"))

/-- `vehicleRepository.GetByLicensePlate`. -/
def vehicleRepository.GetByLicensePlate (ctx : Context)
    (licensePlate : String) : RepoM model.Vehicle :=
  withTenant ctx (fun t db =>
    match (db.visibleVehicles t).find?
      (fun v => v.licensePlate == some licensePlate) with
    | none =>
      (Except.error
        ("vehicle with license plate " ++ licensePlate ++ " not found"),
       db, qcall t "SELECT vehicle by plate")
    | some v =>
      (Except.ok (scanVehicle v), db, qcall t "SELECT vehicle by plate"))

/-- `vehicleRepository.SearchByMakeModel`: AND of the applicable
conditions (substring make, substring model, exact year), ordered,
LIMIT 50. -/
def vehicleRepository.SearchByMakeModel (ctx : Context)
    (make mdl : String) (year : Option Int) :
    RepoM (List model.Vehicle) :=
  withTenant ctx (fun t db =>
    let matching := (db.visibleVehicles t).filter (fun v =>
      (make == "" || ilike v.make make) &&
      (mdl == "" || ilike v.model mdl) &&
      (match year with
       | none => true
       | some y => v.year == y))
    (Except.ok
      (((sortByLe vehicleOrderLe matching).take 50).map scanVehicle),
     db, qcall t "SELECT vehicles search"))

/-- `vehicleRepository.FindCompatibleVehicles`: substring make and
model, year between the bounds, active only; `ORDER BY year DESC`,
LIMIT 100. -/
def vehicleRepository.FindCompatibleVehicles (ctx : Context)
    (make mdl : String) (yearFrom yearTo : Int) :
    RepoM (List model.Vehicle) :=
  withTenant ctx (fun t db =>
    let matching := (db.visibleVehicles t).filter (fun v =>
      ilike v.make make && ilike v.model mdl &&
      decide (yearFrom ≤ v.year) && decide (v.year ≤ yearTo) &&
      v.isActive)
    (Except.ok
      (((sortByLe (fun a b => decide (b.year ≤ a.year)) matching).take
          100).map scanVehicle),
     db, qcall t "SELECT compatible vehicles"))

/-- `vehicleRepository.ListByMakeModelYear`: exact match, `ORDER BY
created_at DESC`. -/
def vehicleRepository.ListByMakeModelYear (ctx : Context)
    (make mdl : String) (year : Int) : RepoM (List model.Vehicle) :=
  withTenant ctx (fun t db =>
    let matching := (db.visibleVehicles t).filter (fun v =>
      v.make == make && v.model == mdl && v.year == year)
    (Except.ok
      ((sortByLe (fun a b => decide (b.createdAt ≤ a.createdAt))
          matching).map scanVehicle),
     db, qcall t "SELECT vehicles by make model year"))

/-- `vehicleRepository.Count`. -/
def vehicleRepository.Count (ctx : Context) : RepoM Int :=
  withTenant ctx (fun t db =>
    (Except.ok ((db.visibleVehicles t).length : Int), db,
     qcall t "SELECT COUNT FROM vehicles"))

/-- `vehicleRepository.CountByCustomer`. -/
def vehicleRepository.CountByCustomer (ctx : Context)
    (customerID : Id) : RepoM Int :=
  withTenant ctx (fun t db =>
    (Except.ok
      (((db.visibleVehicles t).filter
          (fun v => v.customerId == customerID)).length : Int),
     db, qcall t "SELECT COUNT vehicles by customer"))

/-- `vehicleRepository.CountActive`. -/
def vehicleRepository.CountActive (ctx : Context) : RepoM Int :=
  withTenant ctx (fun t db =>
    (Except.ok
      (((db.visibleVehicles t).filter (fun v => v.isActive)).length : Int),
     db, qcall t "SELECT COUNT active vehicles"))

/-- `vehicleRepository.ExistsByVIN`. -/
def vehicleRepository.ExistsByVIN (ctx : Context) (vin : String)
    (excludeID : Option Id) : RepoM Bool :=
  withTenant ctx (fun t db =>
    let rows := (db.visibleVehicles t).filter (fun v =>
      v.vin == some vin &&
      (match excludeID with
       | none => true
       | some ex => !(v.id == ex)))
    (Except.ok (decide (0 < rows.length)), db,
     qcall t "SELECT COUNT vehicles by vin"))

/-- `vehicleRepository.ExistsByLicensePlate`. -/
def vehicleRepository.ExistsByLicensePlate (ctx : Context)
    (licensePlate : String) (excludeID : Option Id) : RepoM Bool :=
  withTenant ctx (fun t db =>
    let rows := (db.visibleVehicles t).filter (fun v =>
      v.licensePlate == some licensePlate &&
      (match excludeID with
       | none => true
       | some ex => !(v.id == ex)))
    (Except.ok (decide (0 < rows.length)), db,
     qcall t "SELECT COUNT vehicles by plate"))

/-- `vehicleRepository.CreateBatch`: returns nil immediately on an
empty slice — before the tenant check; otherwise one transaction
(BEGIN, tenant directive, the inserts, COMMIT). -/
def vehicleRepository.CreateBatch (ctx : Context)
    (vehicles : List model.Vehicle) : RepoM Unit :=
  fun db =>
    if vehicles.isEmpty then (Except.ok (), db, [])
    else
      withTenant ctx (fun t db1 =>
        let step : Db → model.Vehicle → Db := fun d v =>
          { d with
            vehicles := d.vehicles ++ [mkVehicleRow d.nextVehicleId v]
            nextVehicleId := d.nextVehicleId + 1 }
        let db2 := vehicles.foldl step db1
        (Except.ok (), db2,
         [SStmt.beginTx, SStmt.set t] ++
         vehicles.map (fun _ => SStmt.sql "INSERT INTO vehicles") ++
         [SStmt.commit])) db

/-- `vehicleRepository.ListActiveByCustomer`: `List` with customer
filter, active-only, limit 100. -/
def vehicleRepository.ListActiveByCustomer (ctx : Context)
    (customerID : Id) : RepoM (List model.Vehicle) :=
  fun db =>
    match vehicleRepository.list ctx
      { customerId := customerID, search := "", activeOnly := true
        page := 0, limit := 100 } db with
    | (Except.error e, db1, tr) => (Except.error e, db1, tr)
    | (Except.ok (vehicles, _), db1, tr) => (Except.ok vehicles, db1, tr)

/-! #### customerNoteRepository -/

/-- The dynamic WHERE predicate of `customerNoteRepository.List`. The
Go filter holds its customer id as a string whose zero value is `""`;
with integer ids the corresponding zero value is 0. -/
def noteMatches (filter : model.CustomerNoteFilter)
    (n : model.CustomerNote) : Bool :=
  (!(decide (filter.customerId ≠ 0)) ||
    n.customerId == filter.customerId) &&
  (filter.type == "" || n.type == filter.type) &&
  (match filter.dateFrom with
   | none => true
   | some d => decide (d ≤ n.createdAt)) &&
  (match filter.dateTo with
   | none => true
   | some d => decide (n.createdAt ≤ d))

/-- `ORDER BY cn.created_at DESC`. -/
def noteOrderLe (a b : model.CustomerNote) : Bool :=
  decide (b.createdAt ≤ a.createdAt)

/-- `customerNoteRepository.Create`. -/
def customerNoteRepository.Create (ctx : Context)
    (note : model.CustomerNote) : RepoM model.CustomerNote :=
  withTenant ctx (fun t db =>
    let row := { note with id := db.nextNoteId }
    (Except.ok row,
     { db with
       notes := db.notes ++ [row]
       nextNoteId := db.nextNoteId + 1 },
     qcall t "INSERT INTO customer_notes"))

/-- `customerNoteRepository.GetByID`. -/
def customerNoteRepository.GetByID (ctx : Context) (id : Id) :
    RepoM model.CustomerNote :=
  withTenant ctx (fun t db =>
    match (db.visibleNotes t).find? (fun n => n.id == id) with
    | none =>
      (Except.error
        ("customer note with ID " ++ toString id ++ " not found"),
       db, qcall t "SELECT note by id")
    | some n => (Except.ok n, db, qcall t "SELECT note by id"))

/-- `customerNoteRepository.Delete`: DELETE `USING customers`. -/
def customerNoteRepository.Delete (ctx : Context) (id : Id) :
    RepoM Unit :=
  withTenant ctx (fun t db =>
    let hit : model.CustomerNote → Bool := fun r =>
      r.id == id &&
      (db.visibleCustomers t).any (fun c => c.id == r.customerId)
    let rowsAffected := (db.notes.filter hit).length
    let db2 := { db with notes := db.notes.filter (fun r => !hit r) }
    if rowsAffected == 0 then
      (Except.error
        ("customer note with ID " ++ toString id ++ " not found"),
       db2, qcall t "DELETE FROM customer_notes")
    else (Except.ok (), db2, qcall t "DELETE FROM customer_notes"))

/-- `customerNoteRepository.List`: count, then one page ordered by
`created_at DESC`. -/
def customerNoteRepository.list (ctx : Context)
    (filter : model.CustomerNoteFilter) :
    RepoM (List model.CustomerNote × Int) :=
  withTenant ctx (fun t db =>
    let matching := (db.visibleNotes t).filter (noteMatches filter)
    let total : Int := matching.length
    let limit := effectiveLimit filter.limit
    let offset := effectiveOffset filter.page limit
    let page := pageOf noteOrderLe matching limit offset
    (Except.ok (page, total), db,
     qcall t "SELECT COUNT FROM customer_notes" ++
     qcall t "SELECT customer_notes page"))

/-- `customerNoteRepository.ListByCustomer`. -/
def customerNoteRepository.ListByCustomer (ctx : Context)
    (customerID : Id) : RepoM (List model.CustomerNote) :=
  fun db =>
    match customerNoteRepository.list ctx
      { customerId := customerID, type := "", dateFrom := none
        dateTo := none, page := 0, limit := 100 } db with
    | (Except.error e, db1, tr) => (Except.error e, db1, tr)
    | (Except.ok (notes, _), db1, tr) => (Except.ok notes, db1, tr)

/-- `customerNoteRepository.ListByCustomerAndType`. -/
def customerNoteRepository.ListByCustomerAndType (ctx : Context)
    (customerID : Id) (noteType : String) :
    RepoM (List model.CustomerNote) :=
  fun db =>
    match customerNoteRepository.list ctx
      { customerId := customerID, type := noteType, dateFrom := none
        dateTo := none, page := 0, limit := 100 } db with
    | (Except.error e, db1, tr) => (Except.error e, db1, tr)
    | (Except.ok (notes, _), db1, tr) => (Except.ok notes, db1, tr)

/-- `customerNoteRepository.ListByStaff`: its own count + page over the
staff member's notes (raw limit, no defaulting). -/
def customerNoteRepository.ListByStaff (ctx : Context)
    (staffID : String) (page limit : Int) :
    RepoM (List model.CustomerNote × Int) :=
  withTenant ctx (fun t db =>
    let matching := (db.visibleNotes t).filter
      (fun n => n.staffId == staffID)
    let total : Int := matching.length
    let offset : Int := if page > 0 then (page - 1) * limit else 0
    let page2 := pageOf noteOrderLe matching limit offset
    (Except.ok (page2, total), db,
     qcall t "SELECT COUNT notes by staff" ++
     qcall t "SELECT notes by staff page"))

/-- `customerNoteRepository.ListByType`: delegates to `List`. -/
def customerNoteRepository.ListByType (ctx : Context)
    (noteType : String) (page limit : Int) :
    RepoM (List model.CustomerNote × Int) :=
  customerNoteRepository.list ctx
    { customerId := 0, type := noteType, dateFrom := none
      dateTo := none, page := page, limit := limit }

/-- `customerNoteRepository.ListRecent`: newest notes first, raw
limit. -/
def customerNoteRepository.ListRecent (ctx : Context) (limit : Int) :
    RepoM (List model.CustomerNote) :=
  withTenant ctx (fun t db =>
    (Except.ok
      ((sortByLe noteOrderLe (db.visibleNotes t)).take limit.toNat),
     db, qcall t "SELECT recent notes"))

/-- `customerNoteRepository.ListByDateRange`: `List` with the date
bounds and limit 1000. -/
def customerNoteRepository.ListByDateRange (ctx : Context)
    (customerID : Id) (dateFrom dateTo : Option Time) :
    RepoM (List model.CustomerNote) :=
  fun db =>
    match customerNoteRepository.list ctx
      { customerId := customerID, type := "", dateFrom := dateFrom
        dateTo := dateTo, page := 0, limit := 1000 } db with
    | (Except.error e, db1, tr) => (Except.error e, db1, tr)
    | (Except.ok (notes, _), db1, tr) => (Except.ok notes, db1, tr)

/-- `customerNoteRepository.ListRecentByCustomer`: `List` with the
caller-supplied limit. -/
def customerNoteRepository.ListRecentByCustomer (ctx : Context)
    (customerID : Id) (limit : Int) : RepoM (List model.CustomerNote) :=
  fun db =>
    match customerNoteRepository.list ctx
      { customerId := customerID, type := "", dateFrom := none
        dateTo := none, page := 0, limit := limit } db with
    | (Except.error e, db1, tr) => (Except.error e, db1, tr)
    | (Except.ok (notes, _), db1, tr) => (Except.ok notes, db1, tr)

/-- `customerNoteRepository.Count`. -/
def customerNoteRepository.Count (ctx : Context) : RepoM Int :=
  withTenant ctx (fun t db =>
    (Except.ok ((db.visibleNotes t).length : Int), db,
     qcall t "SELECT COUNT FROM customer_notes"))

/-- `customerNoteRepository.CountByCustomer`. -/
def customerNoteRepository.CountByCustomer (ctx : Context)
    (customerID : Id) : RepoM Int :=
  withTenant ctx (fun t db =>
    (Except.ok
      (((db.visibleNotes t).filter
          (fun n => n.customerId == customerID)).length : Int),
     db, qcall t "SELECT COUNT notes by customer"))

/-- `customerNoteRepository.CountByType`. -/
def customerNoteRepository.CountByType (ctx : Context)
    (noteType : String) : RepoM Int :=
  withTenant ctx (fun t db =>
    (Except.ok
      (((db.visibleNotes t).filter
          (fun n => n.type == noteType)).length : Int),
     db, qcall t "SELECT COUNT notes by type"))

/-- `customerNoteRepository.CountByStaff`. -/
def customerNoteRepository.CountByStaff (ctx : Context)
    (staffID : String) : RepoM Int :=
  withTenant ctx (fun t db =>
    (Except.ok
      (((db.visibleNotes t).filter
          (fun n => n.staffId == staffID)).length : Int),
     db, qcall t "SELECT COUNT notes by staff"))

/-- `customerNoteRepository.GetNoteTypesCount`: per-type counts of a
customer's notes, largest count first. -/
def customerNoteRepository.GetNoteTypesCount (ctx : Context)
    (customerID : Id) : RepoM (List (String × Int)) :=
  withTenant ctx (fun t db =>
    let rows := (db.visibleNotes t).filter
      (fun n => n.customerId == customerID)
    let types := (rows.map (fun n => n.type)).dedup
    let counts := types.map (fun ty =>
      (ty, ((rows.filter (fun n => n.type == ty)).length : Int)))
    (Except.ok
      (sortByLe (fun a b => decide (b.2 ≤ a.2)) counts),
     db, qcall t "SELECT note type counts"))

/-- One row of `customerNoteRepository.GetMostActiveStaff`. -/
structure StaffActivity where
  staffId : String
  staffName : String
  noteCount : Int
  lastNoteCreated : Time
deriving DecidableEq

/-- `customerNoteRepository.GetMostActiveStaff`: per-staff note counts
with the latest creation instant, ordered by count then recency,
LIMIT. -/
def customerNoteRepository.GetMostActiveStaff (ctx : Context)
    (limit : Int) : RepoM (List StaffActivity) :=
  withTenant ctx (fun t db =>
    let rows := db.visibleNotes t
    let groups := (rows.map (fun n => (n.staffId, n.staffName))).dedup
    let activity := groups.map (fun g =>
      let grpRows := rows.filter
        (fun n => n.staffId == g.1 && n.staffName == g.2)
      { staffId := g.1
        staffName := g.2
        noteCount := (grpRows.length : Int)
        lastNoteCreated :=
          (grpRows.map (fun n => n.createdAt)).foldl max 0 :
        StaffActivity })
    let le : StaffActivity → StaffActivity → Bool := fun a b =>
      decide (b.noteCount < a.noteCount) ||
      (a.noteCount == b.noteCount &&
       decide (b.lastNoteCreated ≤ a.lastNoteCreated))
    (Except.ok ((sortByLe le activity).take limit.toNat), db,
     qcall t "SELECT most active staff"))

end postgres

namespace model

/-- `Vehicle.Validate`: required customer reference, make, model, year
range 1900–2100, VIN empty or of length 17 (the letter check lives in
`ValidateVIN`). -/
def Vehicle.Validate (v : Vehicle) : Option ValidationError :=
  if v.customerId ≤ 0 then
    some { field := "customer_id", message := "ID de cliente es requerido" }
  else if v.make = "" then
    some { field := "make", message := "la marca es requerida" }
  else if v.model = "" then
    some { field := "model", message := "el modelo es requerido" }
  else if v.year < 1900 ∨ v.year > 2100 then
    some { field := "year", message := "año inválido" }
  else
    match v.vin with
    | none => none
    | some vin =>
      if 0 < vin.length ∧ vin.length ≠ 17 then
        some { field := "vin"
               message := "VIN debe tener exactamente 17 caracteres" }
      else none

end model

namespace service

/-! ### Domain services (`internal/domain/service/customer_service.go`)

Service methods run entirely through the repository layer; each is a
`RepoM` computation. Methods that stamp `time.Now()` take `now`. -/

open postgres

/-- `fmt.Errorf("...: %w", err)` wrapping of a failing repository
call. -/
def wrapErr (msg : String) (m : RepoM α) : RepoM α :=
  fun db =>
    match m db with
    | (Except.error e, db1, tr) => (Except.error (msg ++ e), db1, tr)
    | (Except.ok a, db1, tr) => (Except.ok a, db1, tr)

/-- `CustomerService.GetCustomer`: the customer plus the optionally
included vehicles and recent notes (the Go code stores the latter on
transient struct slots; here they are the extra tuple components). -/
def CustomerService.GetCustomer (ctx : Context) (id : Id)
    (includeVehicles includeNotes : Bool) :
    RepoM (model.Customer × List model.Vehicle ×
           List model.CustomerNote) :=
  fun db =>
    match wrapErr "failed to get customer: "
      (customerRepository.GetByID ctx id) db with
    | (Except.error e, db1, tr1) => (Except.error e, db1, tr1)
    | (Except.ok customer, db1, tr1) =>
      match (if includeVehicles then
               wrapErr "failed to load customer vehicles: "
                 (vehicleRepository.ListByCustomer ctx id) db1
             else (Except.ok [], db1, [])) with
      | (Except.error e, db2, tr2) => (Except.error e, db2, tr1 ++ tr2)
      | (Except.ok vehicles, db2, tr2) =>
        match (if includeNotes then
                 wrapErr "failed to load customer notes: "
                   (customerNoteRepository.ListRecentByCustomer ctx id 10)
                   db2
               else (Except.ok [], db2, [])) with
        | (Except.error e, db3, tr3) =>
          (Except.error e, db3, tr1 ++ tr2 ++ tr3)
        | (Except.ok notes, db3, tr3) =>
          (Except.ok (customer, vehicles, notes), db3,
           tr1 ++ tr2 ++ tr3)

/-- `CustomerService.DeleteCustomer`: load the customer, list its
active vehicles; deactivate (soft delete) when any exist, hard-delete
the row otherwise. -/
def CustomerService.DeleteCustomer (ctx : Context) (id : Id)
    (now : Time) : RepoM Unit :=
  fun db =>
    match wrapErr "failed to get customer for deletion: "
      (customerRepository.GetByID ctx id) db with
    | (Except.error e, db1, tr1) => (Except.error e, db1, tr1)
    | (Except.ok customer, db1, tr1) =>
      match wrapErr "failed to check customer vehicles: "
        (vehicleRepository.ListActiveByCustomer ctx id) db1 with
      | (Except.error e, db2, tr2) => (Except.error e, db2, tr1 ++ tr2)
      | (Except.ok vehicles, db2, tr2) =>
        if 0 < vehicles.length then
          match wrapErr "failed to deactivate customer: "
            (customerRepository.Update ctx (customer.Deactivate now))
            db2 with
          | (r, db3, tr3) => (r, db3, tr1 ++ tr2 ++ tr3)
        else
          match wrapErr "failed to delete customer: "
            (customerRepository.Delete ctx id) db2 with
          | (r, db3, tr3) => (r, db3, tr1 ++ tr2 ++ tr3)

/-- `VehicleService.CreateVehicle`: referenced customer must exist;
construct, validate shape and VIN, check global VIN and plate
uniqueness, insert. -/
def VehicleService.CreateVehicle (ctx : Context)
    (create : model.VehicleCreate) (now : Time) :
    RepoM model.Vehicle :=
  fun db =>
    match wrapErr "customer not found: "
      (customerRepository.GetByID ctx create.customerId) db with
    | (Except.error e, db1, tr1) => (Except.error e, db1, tr1)
    | (Except.ok _, db1, tr1) =>
      let vehicle := model.NewVehicle create now
      match vehicle.Validate with
      | some err1 =>
        (Except.error ("validation error: " ++ err1.message), db1, tr1)
      | none =>
      match vehicle.ValidateVIN with
      | some err2 =>
        (Except.error ("VIN validation error: " ++ err2.message),
         db1, tr1)
      | none =>
      match (match vehicle.vin with
             | some vin =>
               if vin ≠ "" then
                 match wrapErr "failed to check VIN uniqueness: "
                   (vehicleRepository.ExistsByVIN ctx vin none) db1 with
                 | (Except.error e, dbx, trx) =>
                   (Except.error e, dbx, trx)
                 | (Except.ok true, dbx, trx) =>
                   (Except.error
                     ("vehicle with VIN " ++ vin ++ " already exists"),
                    dbx, trx)
                 | (Except.ok false, dbx, trx) =>
                   (Except.ok (), dbx, trx)
               else (Except.ok (), db1, [])
             | none => (Except.ok (), db1, [])) with
      | (Except.error e, db2, tr2) => (Except.error e, db2, tr1 ++ tr2)
      | (Except.ok _, db2, tr2) =>
        match (match vehicle.licensePlate with
               | some plate =>
                 if plate ≠ "" then
                   match wrapErr
                     "failed to check license plate uniqueness: "
                     (vehicleRepository.ExistsByLicensePlate ctx plate
                       none) db2 with
                   | (Except.error e, dbx, trx) =>
                     (Except.error e, dbx, trx)
                   | (Except.ok true, dbx, trx) =>
                     (Except.error
                       ("vehicle with license plate " ++ plate ++
                        " already exists"), dbx, trx)
                   | (Except.ok false, dbx, trx) =>
                     (Except.ok (), dbx, trx)
                 else (Except.ok (), db2, [])
               | none => (Except.ok (), db2, [])) with
        | (Except.error e, db3, tr3) =>
          (Except.error e, db3, tr1 ++ tr2 ++ tr3)
        | (Except.ok _, db3, tr3) =>
          match wrapErr "failed to create vehicle: "
            (vehicleRepository.Create ctx vehicle) db3 with
          | (r, db4, tr4) => (r, db4, tr1 ++ tr2 ++ tr3 ++ tr4)

end service

namespace grpc

/-! ### Transport adapter (`CustomerHandler`, C10) -/

/-- proto3 `UpdateCustomerRequest`: scalar fields carry their zero
values (empty string, `false`) when the caller omits them — the wire
format cannot distinguish an omitted scalar from its zero value. -/
structure UpdateCustomerRequest where
  id : Id
  firstName : String
  lastName : String
  email : String
  phone : String
  customerType : String
  companyName : String
  taxId : String
  address : String
  birthday : Option Time
  notes : String
  preferences : Option JsonMap
  isActive : Bool
deriving DecidableEq

/-- The decode step of `CustomerHandler.UpdateCustomer` (the
construction of `model.CustomerUpdate` from the request): a string
field equal to `""` is treated as absent; `IsActive` is copied
unconditionally (`update.IsActive = &req.IsActive`); `Birthday` and
`Preferences` are message fields with a real nil state. -/
def CustomerHandler.decodeUpdateCustomer (req : UpdateCustomerRequest) :
    model.CustomerUpdate :=
  { id := req.id
    firstName := if req.firstName = "" then none else some req.firstName
    lastName := if req.lastName = "" then none else some req.lastName
    email := if req.email = "" then none else some req.email
    phone := if req.phone = "" then none else some req.phone
    customerType :=
      if req.customerType = "" then none else some req.customerType
    companyName :=
      if req.companyName = "" then none else some req.companyName
    taxId := if req.taxId = "" then none else some req.taxId
    address := if req.address = "" then none else some req.address
    notes := if req.notes = "" then none else some req.notes
    isActive := some req.isActive
    birthday := req.birthday
    preferences := req.preferences }

end grpc

namespace postgres

/-- Whether a statement is the tenant directive. -/
def isSetStmt : SStmt → Bool
  | SStmt.set _ => true
  | _ => false

/-- The statements a transaction body issues before finishing (in
whichever of the three ways). -/
def fnTrace : FnOutcome → List SStmt
  | FnOutcome.ok tr => tr
  | FnOutcome.err _ tr => tr
  | FnOutcome.panics tr => tr

end postgres

/-! ### Concrete fixtures used by witnesses and counterexamples -/

/-- An empty database. -/
def emptyDb : postgres.Db :=
  { customers := [], vehicles := [], notes := []
    nextCustomerId := 1, nextVehicleId := 1, nextNoteId := 1 }

/-- A sample customer row of tenant `"T1"`. -/
def sampleCustomer : model.Customer :=
  { id := 7, tenantId := "T1", firstName := "Ana", lastName := "Diaz"
    email := some "ana@example.com", phone := none
    customerType := "individual", companyName := none, taxId := none
    address := none, birthday := none, notes := none
    preferences := some [], isActive := true
    createdAt := 5, updatedAt := 5 }

/-- A sample active vehicle owned by `sampleCustomer`. -/
def sampleVehicle : model.Vehicle :=
  { id := 3, customerId := 7, make := "Toyota", model := "Corolla"
    year := 2020, vin := none, licensePlate := none, color := none
    engine := none, notes := none, isActive := true
    metadata := some [], createdAt := 5, updatedAt := 5 }

/-- `sampleVehicle` with a chosen VIN. -/
def vinVehicle (vin : Option String) : model.Vehicle :=
  { sampleVehicle with vin := vin }

/-- Database with one customer who owns one active vehicle. -/
def c5SoftDb : postgres.Db :=
  { customers := [sampleCustomer], vehicles := [sampleVehicle]
    notes := [], nextCustomerId := 8, nextVehicleId := 4
    nextNoteId := 1 }

/-- Database with the same customer and no vehicles at all. -/
def c5HardDb : postgres.Db :=
  { customers := [sampleCustomer], vehicles := [], notes := []
    nextCustomerId := 8, nextVehicleId := 4, nextNoteId := 1 }

/-- The i-th of 25 customer rows: ids 1..25, strictly decreasing
`created_at` so the default ordering is unambiguous. -/
def c8Customer (i : Nat) : model.Customer :=
  { id := (i : Int) + 1, tenantId := "T1", firstName := "A"
    lastName := "B", email := none, phone := none
    customerType := "individual", companyName := none, taxId := none
    address := none, birthday := none, notes := none
    preferences := some [], isActive := true
    createdAt := 1000 - i, updatedAt := 0 }

/-- Database holding the 25 rows of `c8Customer`, all of tenant
`"T1"`. -/
def c8Db : postgres.Db :=
  { customers := (List.range 25).map c8Customer, vehicles := []
    notes := [], nextCustomerId := 26, nextVehicleId := 1
    nextNoteId := 1 }

/-- Filter selecting everything, page 2, limit 10. -/
def c8Filter : model.CustomerFilter :=
  { search := "", customerType := "", activeOnly := false
    page := 2, limit := 10, sortBy := "", sortOrder := "" }

/-- An `UpdateCustomer` request that sets only the email; every other
scalar field — including `is_active` — carries its proto3 zero value. -/
def c10Request : grpc.UpdateCustomerRequest :=
  { id := 7, firstName := "", lastName := ""
    email := "new@example.com", phone := "", customerType := ""
    companyName := "", taxId := "", address := "", birthday := none
    notes := "", preferences := none, isActive := false }

/-- The error the repositories surface when the context carries no
tenant (`GetTenantIDFromContext`). -/
def missingTenantError : String := "tenant ID not found in context"

/-! ## Helper lemmas -/

theorem insertLe_length (le : α → α → Bool) (a : α) (l : List α) :
    (postgres.insertLe le a l).length = l.length + 1 := by
  induction l with
  | nil => rfl
  | cons b bs ih =>
    by_cases h : le a b = true
    · simp [postgres.insertLe, h]
    · simp [postgres.insertLe, h, ih]

theorem sortByLe_length (le : α → α → Bool) (l : List α) :
    (postgres.sortByLe le l).length = l.length := by
  induction l with
  | nil => rfl
  | cons a as ih => simp [postgres.sortByLe, insertLe_length, ih]

theorem filter_map_of_pres (f : α → α) (p : α → Bool) (l : List α)
    (h : ∀ a, p (f a) = p a) :
    (l.map f).filter p = (l.filter p).map f := by
  induction l with
  | nil => rfl
  | cons a as ih =>
    by_cases ha : p a = true
    · simp [List.filter_cons, h, ha, ih]
    · simp only [Bool.not_eq_true] at ha
      simp [List.filter_cons, h, ha, ih]

theorem find?_map_of_pres (f : α → α) (q : α → Bool) (l : List α)
    (h : ∀ a, q (f a) = q a) :
    (l.map f).find? q = (l.find? q).map f := by
  induction l with
  | nil => rfl
  | cons a as ih =>
    by_cases ha : q a = true
    · simp [List.find?_cons, h, ha]
    · simp only [Bool.not_eq_true] at ha
      simp [List.find?_cons, h, ha, ih]

theorem updCustomerRow_id (t : TenantId) (u r : model.Customer) :
    (postgres.updCustomerRow t u r).id = r.id := by
  unfold postgres.updCustomerRow
  split <;> rfl

theorem updCustomerRow_tenantId (t : TenantId) (u r : model.Customer) :
    (postgres.updCustomerRow t u r).tenantId = r.tenantId := by
  unfold postgres.updCustomerRow
  split <;> rfl

theorem updCustomerRow_of_hit (t : TenantId) (u r : model.Customer)
    (h : (r.id == u.id && r.tenantId == t) = true) :
    (postgres.updCustomerRow t u r).isActive = u.isActive ∧
    (postgres.updCustomerRow t u r).updatedAt = u.updatedAt := by
  unfold postgres.updCustomerRow
  rw [if_pos h]
  exact ⟨rfl, rfl⟩

theorem customerGetByID_missing (t : TenantId) (db : postgres.Db)
    (cid : Id)
    (h : (db.visibleCustomers t).find? (fun x => x.id == cid) = none) :
    postgres.customerRepository.GetByID (some t) cid db =
      (Except.error ("customer with ID " ++ toString cid ++
        " not found"), db, postgres.qcall t "SELECT customer by id") := by
  simp [postgres.customerRepository.GetByID, postgres.withTenant,
    postgres.GetTenantIDFromContext, postgres.GetTenantID, h]

/-! ## Claim theorems -/

/-- Claim C9 (confirmed): the optional-value / nullable-wrapper
conversion round-trips exactly for the string, time and int64 helper
pairs: an absent value comes back absent (not as an empty string or
zero), and a present value comes back equal. -/
theorem c9_null_wrapper_roundtrip :
    (∀ o : Option String,
      postgres.StringFromNull (postgres.NullString o) = o) ∧
    (∀ o : Option Time, postgres.TimeFromNull (postgres.NullTime o) = o) ∧
    (∀ o : Option Int,
      postgres.Int64FromNull (postgres.NullInt64 o) = o) := by
  refine ⟨?_, ?_, ?_⟩ <;> intro o <;> cases o <;> rfl

/-- Claim C6 (confirmed): `UpdateFromUpdate` on customers and vehicles
overwrites exactly the fields whose update values are non-nil, leaves
every nil-valued field untouched, never touches the identity /
tenant / creation columns, and always stamps `updated_at` to the
current instant. -/
theorem c6_partial_update_frame :
    (∀ (c : model.Customer) (u : model.CustomerUpdate) (now : Time),
      (c.UpdateFromUpdate u now).updatedAt = now ∧
      (c.UpdateFromUpdate u now).id = c.id ∧
      (c.UpdateFromUpdate u now).tenantId = c.tenantId ∧
      (c.UpdateFromUpdate u now).createdAt = c.createdAt ∧
      (c.UpdateFromUpdate u now).firstName =
        (match u.firstName with | none => c.firstName | some v => v) ∧
      (c.UpdateFromUpdate u now).lastName =
        (match u.lastName with | none => c.lastName | some v => v) ∧
      (c.UpdateFromUpdate u now).email =
        (match u.email with | none => c.email | some v => some v) ∧
      (c.UpdateFromUpdate u now).phone =
        (match u.phone with | none => c.phone | some v => some v) ∧
      (c.UpdateFromUpdate u now).customerType =
        (match u.customerType with
         | none => c.customerType
         | some v => v) ∧
      (c.UpdateFromUpdate u now).companyName =
        (match u.companyName with
         | none => c.companyName
         | some v => some v) ∧
      (c.UpdateFromUpdate u now).taxId =
        (match u.taxId with | none => c.taxId | some v => some v) ∧
      (c.UpdateFromUpdate u now).address =
        (match u.address with | none => c.address | some v => some v) ∧
      (c.UpdateFromUpdate u now).birthday =
        (match u.birthday with | none => c.birthday | some v => some v) ∧
      (c.UpdateFromUpdate u now).notes =
        (match u.notes with | none => c.notes | some v => some v) ∧
      (c.UpdateFromUpdate u now).preferences =
        (match u.preferences with
         | none => c.preferences
         | some p => some p) ∧
      (c.UpdateFromUpdate u now).isActive =
        (match u.isActive with | none => c.isActive | some v => v)) ∧
    (∀ (v : model.Vehicle) (u : model.VehicleUpdate) (now : Time),
      (v.UpdateFromUpdate u now).updatedAt = now ∧
      (v.UpdateFromUpdate u now).id = v.id ∧
      (v.UpdateFromUpdate u now).customerId = v.customerId ∧
      (v.UpdateFromUpdate u now).createdAt = v.createdAt ∧
      (v.UpdateFromUpdate u now).make =
        (match u.make with | none => v.make | some x => x) ∧
      (v.UpdateFromUpdate u now).model =
        (match u.model with | none => v.model | some x => x) ∧
      (v.UpdateFromUpdate u now).year =
        (match u.year with | none => v.year | some x => x) ∧
      (v.UpdateFromUpdate u now).vin =
        (match u.vin with | none => v.vin | some x => some x) ∧
      (v.UpdateFromUpdate u now).licensePlate =
        (match u.licensePlate with
         | none => v.licensePlate
         | some x => some x) ∧
      (v.UpdateFromUpdate u now).color =
        (match u.color with | none => v.color | some x => some x) ∧
      (v.UpdateFromUpdate u now).engine =
        (match u.engine with | none => v.engine | some x => some x) ∧
      (v.UpdateFromUpdate u now).notes =
        (match u.notes with | none => v.notes | some x => some x) ∧
      (v.UpdateFromUpdate u now).isActive =
        (match u.isActive with | none => v.isActive | some x => x) ∧
      (v.UpdateFromUpdate u now).metadata =
        (match u.metadata with | none => v.metadata | some m => some m)) :=
  ⟨fun c u now =>
    ⟨rfl, rfl, rfl, rfl, rfl, rfl, rfl, rfl, rfl, rfl, rfl, rfl, rfl,
     rfl, rfl, rfl⟩,
   fun v u now =>
    ⟨rfl, rfl, rfl, rfl, rfl, rfl, rfl, rfl, rfl, rfl, rfl, rfl, rfl,
     rfl⟩⟩

/-- Claim C7 (confirmed): VIN validation accepts an absent or empty
VIN, rejects a non-empty VIN whose length is not 17, rejects a
17-character VIN containing I, O or Q, and accepts every 17-character
VIN free of those letters. -/
theorem c7_vin_validation :
    (∀ v : model.Vehicle, v.vin = none ∨ v.vin = some "" →
      v.ValidateVIN = none) ∧
    (∀ (v : model.Vehicle) (s : String), v.vin = some s → s ≠ "" →
      s.length ≠ 17 →
      v.ValidateVIN =
        some { field := "vin"
               message := "VIN debe tener exactamente 17 caracteres" }) ∧
    (∀ (v : model.Vehicle) (s : String), v.vin = some s →
      s.length = 17 →
      (∃ ch ∈ s.toList, ch = 'I' ∨ ch = 'O' ∨ ch = 'Q') →
      v.ValidateVIN =
        some { field := "vin"
               message := "VIN no puede contener las letras I, O o Q" }) ∧
    (∀ (v : model.Vehicle) (s : String), v.vin = some s →
      s.length = 17 →
      (∀ ch ∈ s.toList, ch ≠ 'I' ∧ ch ≠ 'O' ∧ ch ≠ 'Q') →
      v.ValidateVIN = none) := by
  have hne17 : ∀ s : String, s.length = 17 → s ≠ "" := by
    intro s h hs
    subst hs
    simp at h
  refine ⟨?_, ?_, ?_, ?_⟩
  · intro v h
    rcases h with h | h <;> simp [model.Vehicle.ValidateVIN, h]
  · intro v s hv hs hl
    simp [model.Vehicle.ValidateVIN, hv, hs, hl]
  · intro v s hv hl hex
    have hs := hne17 s hl
    rcases hex with ⟨ch, hch, hIOQ⟩
    simp [model.Vehicle.ValidateVIN, hv, hs, hl, List.any_eq_true]
    refine ⟨ch, by simpa using hch, ?_⟩
    rcases hIOQ with h | h | h <;> simp [h]
  · intro v s hv hl hall
    have hs := hne17 s hl
    simp [model.Vehicle.ValidateVIN, hv, hs, hl, List.any_eq_true]
    intro ch hch
    have := hall ch (by simpa using hch)
    simp [this.1, this.2.1, this.2.2]

/-- Witness for C7 at concrete VINs: absent accepted, wrong length
rejected, letter I rejected, clean 17-character VIN accepted. -/
theorem c7_vin_validation_witness :
    (vinVehicle none).ValidateVIN = none ∧
    (vinVehicle (some "ABC")).ValidateVIN =
      some { field := "vin"
             message := "VIN debe tener exactamente 17 caracteres" } ∧
    (vinVehicle (some "1HGBH41JXMN10918I")).ValidateVIN =
      some { field := "vin"
             message := "VIN no puede contener las letras I, O o Q" } ∧
    (vinVehicle (some "1HGBH41JXMN109186")).ValidateVIN = none := by
  refine ⟨c7_vin_validation.1 _ (Or.inl rfl),
          c7_vin_validation.2.1 _ "ABC" rfl (by decide) (by decide),
          c7_vin_validation.2.2.1 _ "1HGBH41JXMN10918I" rfl (by decide)
            ?_,
          c7_vin_validation.2.2.2 _ "1HGBH41JXMN109186" rfl (by decide)
            (by decide)⟩
  exact ⟨'I', by decide, by decide⟩

/-- Claim C10 (confirmed): the `UpdateCustomer` decoder maps an empty
string field to an absent update field (so the RPC can never clear a
string field to empty) but copies `is_active` unconditionally; hence a
request whose `is_active` is omitted (proto3 zero value `false`)
deactivates the customer regardless of its previous state. -/
theorem c10_update_decoder_is_active :
    (∀ req : grpc.UpdateCustomerRequest,
      (grpc.CustomerHandler.decodeUpdateCustomer req).firstName =
        (if req.firstName = "" then none else some req.firstName) ∧
      (grpc.CustomerHandler.decodeUpdateCustomer req).lastName =
        (if req.lastName = "" then none else some req.lastName) ∧
      (grpc.CustomerHandler.decodeUpdateCustomer req).email =
        (if req.email = "" then none else some req.email) ∧
      (grpc.CustomerHandler.decodeUpdateCustomer req).phone =
        (if req.phone = "" then none else some req.phone) ∧
      (grpc.CustomerHandler.decodeUpdateCustomer req).customerType =
        (if req.customerType = "" then none else some req.customerType) ∧
      (grpc.CustomerHandler.decodeUpdateCustomer req).companyName =
        (if req.companyName = "" then none else some req.companyName) ∧
      (grpc.CustomerHandler.decodeUpdateCustomer req).taxId =
        (if req.taxId = "" then none else some req.taxId) ∧
      (grpc.CustomerHandler.decodeUpdateCustomer req).address =
        (if req.address = "" then none else some req.address) ∧
      (grpc.CustomerHandler.decodeUpdateCustomer req).notes =
        (if req.notes = "" then none else some req.notes) ∧
      (grpc.CustomerHandler.decodeUpdateCustomer req).isActive =
        some req.isActive) ∧
    (∀ (req : grpc.UpdateCustomerRequest) (c : model.Customer)
       (now : Time),
      req.isActive = false →
      (c.UpdateFromUpdate
        (grpc.CustomerHandler.decodeUpdateCustomer req) now).isActive =
        false) := by
  refine ⟨fun req =>
    ⟨rfl, rfl, rfl, rfl, rfl, rfl, rfl, rfl, rfl, rfl⟩, ?_⟩
  intro req c now h
  simp [grpc.CustomerHandler.decodeUpdateCustomer,
    model.Customer.UpdateFromUpdate, h]

/-- Witness for C10: the request setting only the email (is_active
omitted, hence `false`) deactivates the previously active
`sampleCustomer` while leaving its names alone. -/
theorem c10_update_decoder_is_active_witness :
    sampleCustomer.isActive = true ∧
    (sampleCustomer.UpdateFromUpdate
      (grpc.CustomerHandler.decodeUpdateCustomer c10Request) 9).isActive =
      false ∧
    (grpc.CustomerHandler.decodeUpdateCustomer c10Request).email =
      some "new@example.com" ∧
    (grpc.CustomerHandler.decodeUpdateCustomer c10Request).firstName =
      none := by
  refine ⟨rfl, c10_update_decoder_is_active.2 c10Request sampleCustomer 9
    rfl, ?_, ?_⟩
  · exact (c10_update_decoder_is_active.1 c10Request).2.2.1
  · exact (c10_update_decoder_is_active.1 c10Request).1

/-- Claim C1 (code bug): the tenant directive is indeed re-issued as
the first statement of every per-call store helper — but it is issued
through a pool-level statement separate from the query, so nothing
pins the two to one connection. With a two-connection pool whose
second connection still carries tenant B, a call for tenant A whose
directive is served by connection 0 and whose query is served by
connection 1 runs its query under tenant B. -/
theorem c1_directive_not_pinned_to_query_connection :
    (∀ (env : postgres.StoreEnv) (t : TenantId) (q : String),
      (postgres.ExecWithTenant env t q).2.head? =
        some (postgres.SStmt.set t) ∧
      (postgres.QueryWithTenant env t q).2.head? =
        some (postgres.SStmt.set t) ∧
      (postgres.QueryRowWithTenant env t q).2.head? =
        some (postgres.SStmt.set t)) ∧
    (postgres.ExecWithTenantOnPool
        { conns := [{ sessionTenant := none },
                    { sessionTenant := some "tenant-B" }] }
        (fun n => n) "tenant-A" =
      { pool := { conns := [{ sessionTenant := some "tenant-A" },
                            { sessionTenant := some "tenant-B" }] }
        setConn := 0
        queryConn := 1
        directiveSeenByQuery := some "tenant-B" }) ∧
    some "tenant-B" ≠ some "tenant-A" := by
  refine ⟨?_, rfl, by decide⟩
  intro env t q
  rcases env with ⟨sf, bf, qf, cf⟩
  cases sf <;> exact ⟨rfl, rfl, rfl⟩

/-- Claim C3, counterexample: with the tenant directive failing, the
single-row helper does not abort — it issues the underlying query
anyway and reports success of the directive-less call. -/
theorem c3_counterexample_query_row_ignores_set_failure :
    postgres.QueryRowWithTenant
        { setFails := true, beginFails := false, queryFails := false
          commitFails := false } "tenant-A" "SELECT 1" =
      (Except.ok (),
       [postgres.SStmt.set "tenant-A", postgres.SStmt.sql "SELECT 1"]) ∧
    postgres.traceHasSql
      (postgres.QueryRowWithTenant
        { setFails := true, beginFails := false, queryFails := false
          commitFails := false } "tenant-A" "SELECT 1").2 = true :=
  ⟨rfl, rfl⟩

/-- Claim C3, amended (directive-failure handling of the store): when
the tenant directive itself fails, the single-statement exec, the
multi-row query and the transactional begin abort immediately — with
rollback in the transactional case — and never attempt the underlying
query; the single-row helper, however, discards the directive failure
and attempts its query regardless. -/
theorem c3_directive_failure_aborts (env : postgres.StoreEnv)
    (t : TenantId) (q : String) (hset : env.setFails = true)
    (hbegin : env.beginFails = false) :
    postgres.ExecWithTenant env t q =
      (Except.error "set tenant failed", [postgres.SStmt.set t]) ∧
    postgres.QueryWithTenant env t q =
      (Except.error "set tenant failed", [postgres.SStmt.set t]) ∧
    postgres.BeginTxWithTenant env t =
      (Except.error "failed to set tenant ID: set tenant failed",
       [postgres.SStmt.beginTx, postgres.SStmt.set t,
        postgres.SStmt.rollback]) ∧
    (∀ fn : postgres.FnOutcome,
      postgres.TransactionWithTenant env t fn =
        (postgres.TxResult.err "failed to set tenant ID: set tenant failed",
         [postgres.SStmt.beginTx, postgres.SStmt.set t,
          postgres.SStmt.rollback])) ∧
    postgres.traceHasSql (postgres.ExecWithTenant env t q).2 = false ∧
    postgres.traceHasSql (postgres.QueryWithTenant env t q).2 = false ∧
    postgres.traceHasSql (postgres.BeginTxWithTenant env t).2 = false ∧
    postgres.QueryRowWithTenant env t q =
      ((if env.queryFails then Except.error "scan failed"
        else Except.ok ()),
       [postgres.SStmt.set t, postgres.SStmt.sql q]) := by
  rcases env with ⟨sf, bf, qf, cf⟩
  simp only at hset hbegin
  subst hset hbegin
  exact ⟨rfl, rfl, rfl, fun fn => rfl, rfl, rfl, rfl, rfl⟩

/-- Witness for C3 at a concrete environment. -/
theorem c3_directive_failure_aborts_witness :
    postgres.ExecWithTenant
        { setFails := true, beginFails := false, queryFails := false
          commitFails := false } "t1" "SELECT 1" =
      (Except.error "set tenant failed", [postgres.SStmt.set "t1"]) ∧
    postgres.BeginTxWithTenant
        { setFails := true, beginFails := false, queryFails := false
          commitFails := false } "t1" =
      (Except.error "failed to set tenant ID: set tenant failed",
       [postgres.SStmt.beginTx, postgres.SStmt.set "t1",
        postgres.SStmt.rollback]) := by
  have h := c3_directive_failure_aborts
    { setFails := true, beginFails := false, queryFails := false
      commitFails := false } "t1" "SELECT 1" rfl rfl
  exact ⟨h.1, h.2.2.1⟩

/-- Claim C4, counterexample: a panic thrown by the transaction body is
not answered with a rollback — the helper installs no deferred
recovery, so the panic unwinds with the transaction left open (neither
rollback nor commit is issued). -/
theorem c4_counterexample_panic_without_rollback :
    postgres.TransactionWithTenant
        { setFails := false, beginFails := false, queryFails := false
          commitFails := false } "tenant-A"
        (postgres.FnOutcome.panics []) =
      (postgres.TxResult.panicked,
       [postgres.SStmt.beginTx, postgres.SStmt.set "tenant-A"]) ∧
    ((postgres.TransactionWithTenant
        { setFails := false, beginFails := false, queryFails := false
          commitFails := false } "tenant-A"
        (postgres.FnOutcome.panics [])).2.contains
      postgres.SStmt.rollback = false) :=
  ⟨rfl, rfl⟩

/-- Claim C4, amended: `TransactionWithTenant` opens a transaction,
issues the tenant directive exactly once inside it, runs the supplied
function, commits when it returns nil and rolls back on a returned
error; a panic thrown during the function propagates without commit or
rollback being issued (nothing is committed, but no rollback statement
is sent either). -/
theorem c4_transaction_with_tenant (env : postgres.StoreEnv)
    (t : TenantId) (hbegin : env.beginFails = false)
    (hset : env.setFails = false) :
    (∀ tr, postgres.TransactionWithTenant env t
        (postgres.FnOutcome.ok tr) =
      ((if env.commitFails then postgres.TxResult.err "commit failed"
        else postgres.TxResult.ok),
       [postgres.SStmt.beginTx, postgres.SStmt.set t] ++ tr ++
         [postgres.SStmt.commit])) ∧
    (∀ e tr, postgres.TransactionWithTenant env t
        (postgres.FnOutcome.err e tr) =
      (postgres.TxResult.err e,
       [postgres.SStmt.beginTx, postgres.SStmt.set t] ++ tr ++
         [postgres.SStmt.rollback])) ∧
    (∀ tr, postgres.TransactionWithTenant env t
        (postgres.FnOutcome.panics tr) =
      (postgres.TxResult.panicked,
       [postgres.SStmt.beginTx, postgres.SStmt.set t] ++ tr)) ∧
    (∀ fn : postgres.FnOutcome,
      (postgres.fnTrace fn).countP postgres.isSetStmt = 0 →
      ((postgres.TransactionWithTenant env t fn).2.countP
        postgres.isSetStmt) = 1) := by
  rcases env with ⟨sf, bf, qf, cf⟩
  simp only at hset hbegin
  subst hset hbegin
  refine ⟨fun tr => rfl, fun e tr => rfl, fun tr => rfl, ?_⟩
  intro fn h
  cases fn with
  | ok tr =>
    simp only [postgres.fnTrace] at h
    simp [postgres.TransactionWithTenant, postgres.BeginTxWithTenant,
      List.countP_append, List.countP_cons, postgres.isSetStmt, h]
  | err e tr =>
    simp only [postgres.fnTrace] at h
    simp [postgres.TransactionWithTenant, postgres.BeginTxWithTenant,
      List.countP_append, List.countP_cons, postgres.isSetStmt, h]
  | panics tr =>
    simp only [postgres.fnTrace] at h
    simp [postgres.TransactionWithTenant, postgres.BeginTxWithTenant,
      List.countP_append, List.countP_cons, postgres.isSetStmt, h]

/-- Claim C2, counterexample: `vehicleRepository.CreateBatch` invoked
with an empty slice and a context carrying no tenant returns success —
its empty-slice short-circuit precedes the tenant check — instead of
failing with the missing-tenant error (no SQL is issued either way). -/
theorem c2_counterexample_create_batch_empty :
    postgres.vehicleRepository.CreateBatch none [] emptyDb =
      (Except.ok (), emptyDb, []) ∧
    (postgres.vehicleRepository.CreateBatch none [] emptyDb).1 ≠
      Except.error missingTenantError :=
  ⟨rfl, fun h => Except.noConfusion h⟩

/-- Claim C2, amended: every repository operation of the three
entities, invoked with a context to which no tenant was ever attached,
issues no SQL statement and leaves the database untouched; every such
call fails with the missing-tenant error — except the degenerate
`CreateBatch` call on an empty slice, which returns success before
reaching the tenant check (a non-empty batch fails like the rest). The
tenant is never defaulted. -/
theorem c2_missing_tenant_blocks_every_operation :
    (∀ db c, postgres.customerRepository.Create none c db =
      (Except.error missingTenantError, db, [])) ∧
    (∀ db id, postgres.customerRepository.GetByID none id db =
      (Except.error missingTenantError, db, [])) ∧
    (∀ db c, postgres.customerRepository.Update none c db =
      (Except.error missingTenantError, db, [])) ∧
    (∀ db id, postgres.customerRepository.Delete none id db =
      (Except.error missingTenantError, db, [])) ∧
    (∀ db f, postgres.customerRepository.list none f db =
      (Except.error missingTenantError, db, [])) ∧
    (∀ db f, postgres.customerRepository.Search none f db =
      (Except.error missingTenantError, db, [])) ∧
    (∀ db e, postgres.customerRepository.GetByEmail none e db =
      (Except.error missingTenantError, db, [])) ∧
    (∀ db x, postgres.customerRepository.GetByTaxID none x db =
      (Except.error missingTenantError, db, [])) ∧
    (∀ db ty p l, postgres.customerRepository.ListByType none ty p l db =
      (Except.error missingTenantError, db, [])) ∧
    (∀ db p l, postgres.customerRepository.ListActive none p l db =
      (Except.error missingTenantError, db, [])) ∧
    (∀ db p l, postgres.customerRepository.ListInactive none p l db =
      (Except.error missingTenantError, db, [])) ∧
    (∀ db, postgres.customerRepository.Count none db =
      (Except.error missingTenantError, db, [])) ∧
    (∀ db ty, postgres.customerRepository.CountByType none ty db =
      (Except.error missingTenantError, db, [])) ∧
    (∀ db, postgres.customerRepository.CountActive none db =
      (Except.error missingTenantError, db, [])) ∧
    (∀ db e ex, postgres.customerRepository.ExistsByEmail none e ex db =
      (Except.error missingTenantError, db, [])) ∧
    (∀ db x ex, postgres.customerRepository.ExistsByTaxID none x ex db =
      (Except.error missingTenantError, db, [])) ∧
    (∀ db v, postgres.vehicleRepository.Create none v db =
      (Except.error missingTenantError, db, [])) ∧
    (∀ db id, postgres.vehicleRepository.GetByID none id db =
      (Except.error missingTenantError, db, [])) ∧
    (∀ db v, postgres.vehicleRepository.Update none v db =
      (Except.error missingTenantError, db, [])) ∧
    (∀ db id, postgres.vehicleRepository.Delete none id db =
      (Except.error missingTenantError, db, [])) ∧
    (∀ db f, postgres.vehicleRepository.list none f db =
      (Except.error missingTenantError, db, [])) ∧
    (∀ db cid, postgres.vehicleRepository.ListByCustomer none cid db =
      (Except.error missingTenantError, db, [])) ∧
    (∀ db vin, postgres.vehicleRepository.GetByVIN none vin db =
      (Except.error missingTenantError, db, [])) ∧
    (∀ db lp, postgres.vehicleRepository.GetByLicensePlate none lp db =
      (Except.error missingTenantError, db, [])) ∧
    (∀ db mk md yr,
      postgres.vehicleRepository.SearchByMakeModel none mk md yr db =
        (Except.error missingTenantError, db, [])) ∧
    (∀ db mk md y1 y2,
      postgres.vehicleRepository.FindCompatibleVehicles none mk md y1 y2
        db = (Except.error missingTenantError, db, [])) ∧
    (∀ db mk md y,
      postgres.vehicleRepository.ListByMakeModelYear none mk md y db =
        (Except.error missingTenantError, db, [])) ∧
    (∀ db, postgres.vehicleRepository.Count none db =
      (Except.error missingTenantError, db, [])) ∧
    (∀ db cid, postgres.vehicleRepository.CountByCustomer none cid db =
      (Except.error missingTenantError, db, [])) ∧
    (∀ db, postgres.vehicleRepository.CountActive none db =
      (Except.error missingTenantError, db, [])) ∧
    (∀ db vin ex, postgres.vehicleRepository.ExistsByVIN none vin ex db =
      (Except.error missingTenantError, db, [])) ∧
    (∀ db lp ex,
      postgres.vehicleRepository.ExistsByLicensePlate none lp ex db =
        (Except.error missingTenantError, db, [])) ∧
    (∀ db, postgres.vehicleRepository.CreateBatch none [] db =
      (Except.ok (), db, [])) ∧
    (∀ db v vs, postgres.vehicleRepository.CreateBatch none (v :: vs) db =
      (Except.error missingTenantError, db, [])) ∧
    (∀ db cid,
      postgres.vehicleRepository.ListActiveByCustomer none cid db =
        (Except.error missingTenantError, db, [])) ∧
    (∀ db n, postgres.customerNoteRepository.Create none n db =
      (Except.error missingTenantError, db, [])) ∧
    (∀ db id, postgres.customerNoteRepository.GetByID none id db =
      (Except.error missingTenantError, db, [])) ∧
    (∀ db id, postgres.customerNoteRepository.Delete none id db =
      (Except.error missingTenantError, db, [])) ∧
    (∀ db f, postgres.customerNoteRepository.list none f db =
      (Except.error missingTenantError, db, [])) ∧
    (∀ db cid, postgres.customerNoteRepository.ListByCustomer none cid db =
      (Except.error missingTenantError, db, [])) ∧
    (∀ db cid ty,
      postgres.customerNoteRepository.ListByCustomerAndType none cid ty
        db = (Except.error missingTenantError, db, [])) ∧
    (∀ db sid p l,
      postgres.customerNoteRepository.ListByStaff none sid p l db =
        (Except.error missingTenantError, db, [])) ∧
    (∀ db ty p l,
      postgres.customerNoteRepository.ListByType none ty p l db =
        (Except.error missingTenantError, db, [])) ∧
    (∀ db l, postgres.customerNoteRepository.ListRecent none l db =
      (Except.error missingTenantError, db, [])) ∧
    (∀ db cid d1 d2,
      postgres.customerNoteRepository.ListByDateRange none cid d1 d2 db =
        (Except.error missingTenantError, db, [])) ∧
    (∀ db cid l,
      postgres.customerNoteRepository.ListRecentByCustomer none cid l db =
        (Except.error missingTenantError, db, [])) ∧
    (∀ db, postgres.customerNoteRepository.Count none db =
      (Except.error missingTenantError, db, [])) ∧
    (∀ db cid,
      postgres.customerNoteRepository.CountByCustomer none cid db =
        (Except.error missingTenantError, db, [])) ∧
    (∀ db ty, postgres.customerNoteRepository.CountByType none ty db =
      (Except.error missingTenantError, db, [])) ∧
    (∀ db sid, postgres.customerNoteRepository.CountByStaff none sid db =
      (Except.error missingTenantError, db, [])) ∧
    (∀ db cid,
      postgres.customerNoteRepository.GetNoteTypesCount none cid db =
        (Except.error missingTenantError, db, [])) ∧
    (∀ db l,
      postgres.customerNoteRepository.GetMostActiveStaff none l db =
        (Except.error missingTenantError, db, [])) :=
  ⟨fun _ _ => rfl, fun _ _ => rfl, fun _ _ => rfl, fun _ _ => rfl,
   fun _ _ => rfl, fun _ _ => rfl, fun _ _ => rfl, fun _ _ => rfl,
   fun _ _ _ _ => rfl, fun _ _ _ => rfl, fun _ _ _ => rfl,
   fun _ => rfl, fun _ _ => rfl, fun _ => rfl, fun _ _ _ => rfl,
   fun _ _ _ => rfl, fun _ _ => rfl, fun _ _ => rfl, fun _ _ => rfl,
   fun _ _ => rfl, fun _ _ => rfl, fun _ _ => rfl, fun _ _ => rfl,
   fun _ _ => rfl, fun _ _ _ _ => rfl, fun _ _ _ _ _ => rfl,
   fun _ _ _ _ => rfl, fun _ => rfl, fun _ _ => rfl, fun _ => rfl,
   fun _ _ _ => rfl, fun _ _ _ => rfl, fun _ => rfl,
   fun _ _ _ => rfl, fun _ _ => rfl, fun _ _ => rfl, fun _ _ => rfl,
   fun _ _ => rfl, fun _ _ => rfl, fun _ _ => rfl, fun _ _ _ => rfl,
   fun _ _ _ _ => rfl, fun _ _ _ _ => rfl, fun _ _ => rfl,
   fun _ _ _ _ => rfl, fun _ _ _ => rfl, fun _ => rfl, fun _ _ => rfl,
   fun _ _ => rfl, fun _ _ => rfl, fun _ _ => rfl, fun _ _ => rfl⟩

/-- Claim C8 (confirmed): the paginated lists count the matching rows
first and then fetch one ordered page with `limit` = the filter limit
when positive, else 50, and `offset` = `(page-1)*limit` when the page
is positive, else 0 — for the customer and the vehicle repository
alike; on 25 matching rows with limit 10, page 2, the page holds rows
11–20 and the reported total is 25. -/
theorem c8_list_counts_then_pages :
    (∀ (t : TenantId) (db : postgres.Db) (f : model.CustomerFilter),
      postgres.customerRepository.list (some t) f db =
        (let matching :=
           (db.visibleCustomers t).filter (postgres.customerMatches f)
         let limit : Int := if 0 < f.limit then f.limit else 50
         let offset : Int :=
           if 0 < f.page then (f.page - 1) * limit else 0
         (Except.ok
           ((((postgres.sortByLe (postgres.customerOrderLe f)
                matching).drop offset.toNat).take limit.toNat).map
              postgres.scanCustomer,
            (matching.length : Int)),
          db,
          postgres.qcall t "SELECT COUNT FROM customers" ++
            postgres.qcall t "SELECT customers page"))) ∧
    (∀ (t : TenantId) (db : postgres.Db) (f : model.VehicleFilter),
      postgres.vehicleRepository.list (some t) f db =
        (let matching :=
           (db.visibleVehicles t).filter (postgres.vehicleMatches f)
         let limit : Int := if 0 < f.limit then f.limit else 50
         let offset : Int :=
           if 0 < f.page then (f.page - 1) * limit else 0
         (Except.ok
           ((((postgres.sortByLe postgres.vehicleOrderLe matching).drop
               offset.toNat).take limit.toNat).map postgres.scanVehicle,
            (matching.length : Int)),
          db,
          postgres.qcall t "SELECT COUNT FROM vehicles" ++
            postgres.qcall t "SELECT vehicles page"))) ∧
    (postgres.customerRepository.list (some "T1") c8Filter c8Db).1 =
      Except.ok
        ((List.range 10).map (fun i => c8Customer (i + 10)), 25) ∧
    ((List.range 10).map (fun i => c8Customer (i + 10))).map
        (fun c => c.id) =
      [11, 12, 13, 14, 15, 16, 17, 18, 19, 20] := by
  have hlim : ∀ l : Int,
      postgres.effectiveLimit l = (if 0 < l then l else 50) := by
    intro l
    unfold postgres.effectiveLimit
    rcases le_or_lt l 0 with h | h
    · rw [if_pos h, if_neg (by omega)]
    · rw [if_neg (by omega), if_pos h]
  refine ⟨?_, ?_, ?_, ?_⟩
  · intro t db f
    simp only [postgres.customerRepository.list, postgres.withTenant,
      postgres.GetTenantIDFromContext, postgres.GetTenantID,
      postgres.pageOf, postgres.effectiveOffset, hlim]
    rfl
  · intro t db f
    simp only [postgres.vehicleRepository.list, postgres.withTenant,
      postgres.GetTenantIDFromContext, postgres.GetTenantID,
      postgres.pageOf, postgres.effectiveOffset, hlim]
    rfl
  · rfl
  · rfl

/-- Claim C5 (confirmed): `DeleteCustomer` on an existing customer who
owns at least one active vehicle deactivates them — the row survives
with `is_active = false`, the fresh `updated_at`, and is still
retrievable by get — while on an existing customer with zero active
vehicles it removes the row entirely, so a subsequent get reports
not-found. -/
theorem c5_delete_customer_soft_vs_hard (t : TenantId)
    (db : postgres.Db) (cid : Id) (now : Time) (c : model.Customer)
    (hcid : 0 < cid)
    (hget : (db.visibleCustomers t).find? (fun r => r.id == cid) =
      some c) :
    ((∃ v ∈ db.visibleVehicles t,
        v.customerId = cid ∧ v.isActive = true) →
      (service.CustomerService.DeleteCustomer (some t) cid now db).1 =
        Except.ok () ∧
      ∃ r, (postgres.customerRepository.GetByID (some t) cid
              (service.CustomerService.DeleteCustomer (some t) cid now
                db).2.1).1 = Except.ok r ∧
           r.isActive = false ∧ r.id = cid ∧ r.updatedAt = now) ∧
    ((∀ v ∈ db.visibleVehicles t,
        ¬(v.customerId = cid ∧ v.isActive = true)) →
      (service.CustomerService.DeleteCustomer (some t) cid now db).1 =
        Except.ok () ∧
      (∀ r ∈ (service.CustomerService.DeleteCustomer (some t) cid now
          db).2.1.customers, ¬(r.id = cid ∧ r.tenantId = t)) ∧
      (postgres.customerRepository.GetByID (some t) cid
        (service.CustomerService.DeleteCustomer (some t) cid now
          db).2.1).1 =
        Except.error ("customer with ID " ++ toString cid ++
          " not found")) := by
  -- facts about the fetched customer row
  have hc_pred : (c.id == cid) = true := by
    have h := List.find?_some hget
    simpa using h
  have hc_id : c.id = cid := by simpa using hc_pred
  have hc_visible : c ∈ db.visibleCustomers t :=
    List.mem_of_find?_eq_some hget
  have hc_visible2 :
      c ∈ db.customers.filter (fun r => r.tenantId == t) := hc_visible
  have hc_mem : c ∈ db.customers := (List.mem_filter.mp hc_visible2).1
  have hc_t : c.tenantId = t := by
    simpa using (List.mem_filter.mp hc_visible2).2
  -- the service-level customer value and the row the update writes
  have hGet : postgres.customerRepository.GetByID (some t) cid db =
      (Except.ok (postgres.scanCustomer c), db,
       postgres.qcall t "SELECT customer by id") := by
    simp [postgres.customerRepository.GetByID, postgres.withTenant,
      postgres.GetTenantIDFromContext, postgres.GetTenantID, hget]
  -- the active-vehicle listing
  have hListEval :
      postgres.vehicleRepository.ListActiveByCustomer (some t) cid db =
      (Except.ok
        (((postgres.sortByLe postgres.vehicleOrderLe
            ((db.visibleVehicles t).filter
              (postgres.vehicleMatches
                { customerId := cid, search := "", activeOnly := true
                  page := 0, limit := 100 }))).take 100).map
          postgres.scanVehicle),
       db,
       postgres.qcall t "SELECT COUNT FROM vehicles" ++
         postgres.qcall t "SELECT vehicles page") := by
    simp [postgres.vehicleRepository.ListActiveByCustomer,
      postgres.vehicleRepository.list, postgres.withTenant,
      postgres.GetTenantIDFromContext, postgres.GetTenantID,
      postgres.pageOf, postgres.effectiveLimit,
      postgres.effectiveOffset]
  constructor
  · -- soft delete: at least one active vehicle
    rintro ⟨v, hv_mem, hv_cid, hv_act⟩
    have hvmatch : postgres.vehicleMatches
        { customerId := cid, search := "", activeOnly := true
          page := 0, limit := 100 } v = true := by
      simp [postgres.vehicleMatches, hv_cid, hv_act, hcid]
    have hv_in : v ∈ (db.visibleVehicles t).filter
        (postgres.vehicleMatches
          { customerId := cid, search := "", activeOnly := true
            page := 0, limit := 100 }) :=
      List.mem_filter.mpr ⟨hv_mem, hvmatch⟩
    have hlenpos : 0 < (((postgres.sortByLe postgres.vehicleOrderLe
        ((db.visibleVehicles t).filter
          (postgres.vehicleMatches
            { customerId := cid, search := "", activeOnly := true
              page := 0, limit := 100 }))).take 100).map
        postgres.scanVehicle).length := by
      have h1 : 0 < ((db.visibleVehicles t).filter
          (postgres.vehicleMatches
            { customerId := cid, search := "", activeOnly := true
              page := 0, limit := 100 })).length :=
        List.length_pos.mpr (List.ne_nil_of_mem hv_in)
      simp [List.length_take, sortByLe_length]
      omega
    -- the update succeeds
    have hit_c : (c.id ==
        ((postgres.scanCustomer c).Deactivate now).id &&
        c.tenantId == t) = true := by
      simp [model.Customer.Deactivate, postgres.scanCustomer, hc_t]
    have hrows : ((db.customers.filter (fun r => r.id ==
        ((postgres.scanCustomer c).Deactivate now).id &&
        r.tenantId == t)).length == 0) = false := by
      have hmm : c ∈ db.customers.filter (fun r => r.id ==
          ((postgres.scanCustomer c).Deactivate now).id &&
          r.tenantId == t) :=
        List.mem_filter.mpr ⟨hc_mem, hit_c⟩
      have h2 : 0 < (db.customers.filter (fun r => r.id ==
          ((postgres.scanCustomer c).Deactivate now).id &&
          r.tenantId == t)).length :=
        List.length_pos.mpr (List.ne_nil_of_mem hmm)
      simpa [Nat.beq_eq_true_eq] using Nat.ne_of_gt h2
    have hUpd : postgres.customerRepository.Update (some t)
        ((postgres.scanCustomer c).Deactivate now) db =
        (Except.ok (),
         { db with customers := (db.customers.map
             (postgres.updCustomerRow t
               ((postgres.scanCustomer c).Deactivate now))) },
         postgres.qcall t "UPDATE customers") := by
      simp [postgres.customerRepository.Update, postgres.withTenant,
        postgres.GetTenantIDFromContext, postgres.GetTenantID, hrows]
    have hfne : (db.visibleVehicles t).filter
        (postgres.vehicleMatches
          { customerId := cid, search := "", activeOnly := true
            page := 0, limit := 100 }) ≠ [] :=
      List.ne_nil_of_mem hv_in
    have hsne : postgres.sortByLe postgres.vehicleOrderLe
        ((db.visibleVehicles t).filter
          (postgres.vehicleMatches
            { customerId := cid, search := "", activeOnly := true
              page := 0, limit := 100 })) ≠ [] := by
      intro h
      have hlen := sortByLe_length postgres.vehicleOrderLe
        ((db.visibleVehicles t).filter
          (postgres.vehicleMatches
            { customerId := cid, search := "", activeOnly := true
              page := 0, limit := 100 }))
      rw [h] at hlen
      exact hfne (List.length_eq_zero.mp hlen.symm)
    have hDel : service.CustomerService.DeleteCustomer (some t) cid now
        db =
        (Except.ok (),
         { db with customers := (db.customers.map
             (postgres.updCustomerRow t
               ((postgres.scanCustomer c).Deactivate now))) },
         (postgres.qcall t "SELECT customer by id" ++
          (postgres.qcall t "SELECT COUNT FROM vehicles" ++
           postgres.qcall t "SELECT vehicles page")) ++
         postgres.qcall t "UPDATE customers") := by
      simp [service.CustomerService.DeleteCustomer, service.wrapErr,
        hGet, hListEval, hlenpos, hUpd]
      intro h
      exact absurd h hsne
    refine ⟨by rw [hDel], ?_⟩
    -- the updated row is still retrievable, inactive, freshly stamped
    have hfilter : (db.customers.map
        (postgres.updCustomerRow t
          ((postgres.scanCustomer c).Deactivate now))).filter
        (fun r => r.tenantId == t) =
        (db.customers.filter (fun r => r.tenantId == t)).map
          (postgres.updCustomerRow t
            ((postgres.scanCustomer c).Deactivate now)) :=
      filter_map_of_pres _ _ _ (fun a => by rw [updCustomerRow_tenantId])
    have hfind : ((db.customers.filter (fun r => r.tenantId == t)).map
        (postgres.updCustomerRow t
          ((postgres.scanCustomer c).Deactivate now))).find?
        (fun r => r.id == cid) =
        some (postgres.updCustomerRow t
          ((postgres.scanCustomer c).Deactivate now) c) := by
      rw [find?_map_of_pres _ _ _ (fun a => by rw [updCustomerRow_id])]
      rw [show (db.customers.filter (fun r => r.tenantId == t)).find?
          (fun r => r.id == cid) = some c from hget]
      rfl
    refine ⟨postgres.scanCustomer (postgres.updCustomerRow t
      ((postgres.scanCustomer c).Deactivate now) c), ?_, ?_, ?_, ?_⟩
    · rw [hDel]
      simp only [postgres.customerRepository.GetByID,
        postgres.withTenant, postgres.GetTenantIDFromContext,
        postgres.GetTenantID, postgres.Db.visibleCustomers]
      simp [hfilter, hfind]
    · have := (updCustomerRow_of_hit t
        ((postgres.scanCustomer c).Deactivate now) c hit_c).1
      simpa [postgres.scanCustomer] using this
    · have := updCustomerRow_id t
        ((postgres.scanCustomer c).Deactivate now) c
      simpa [postgres.scanCustomer, hc_id] using this
    · have := (updCustomerRow_of_hit t
        ((postgres.scanCustomer c).Deactivate now) c hit_c).2
      simpa [postgres.scanCustomer, model.Customer.Deactivate]
        using this
  · -- hard delete: no active vehicle
    intro hnone
    have hmz : (db.visibleVehicles t).filter
        (postgres.vehicleMatches
          { customerId := cid, search := "", activeOnly := true
            page := 0, limit := 100 }) = [] := by
      apply List.filter_eq_nil_iff.mpr
      intro v hv
      have hnv := hnone v hv
      by_cases h1 : v.customerId = cid
      · have h2 : v.isActive = false := by
          rcases Bool.eq_false_or_eq_true v.isActive with h | h
          · exact absurd ⟨h1, h⟩ hnv
          · exact h
        simp [postgres.vehicleMatches, h1, h2]
      · simp [postgres.vehicleMatches, h1, hcid]
    have hrowsD : ((db.customers.filter
        (fun r => r.id == cid && r.tenantId == t)).length == 0) =
        false := by
      have hmm : c ∈ db.customers.filter
          (fun r => r.id == cid && r.tenantId == t) :=
        List.mem_filter.mpr ⟨hc_mem, by simp [hc_id, hc_t]⟩
      have h2 : 0 < (db.customers.filter
          (fun r => r.id == cid && r.tenantId == t)).length :=
        List.length_pos.mpr (List.ne_nil_of_mem hmm)
      simpa [Nat.beq_eq_true_eq] using Nat.ne_of_gt h2
    have hDelRepo : postgres.customerRepository.Delete (some t) cid db =
        (Except.ok (),
         { db with customers := (db.customers.filter
             (fun r => !(r.id == cid && r.tenantId == t))) },
         postgres.qcall t "DELETE FROM customers") := by
      simp [postgres.customerRepository.Delete, postgres.withTenant,
        postgres.GetTenantIDFromContext, postgres.GetTenantID, hrowsD]
    have hDel : service.CustomerService.DeleteCustomer (some t) cid now
        db =
        (Except.ok (),
         { db with customers := (db.customers.filter
             (fun r => !(r.id == cid && r.tenantId == t))) },
         (postgres.qcall t "SELECT customer by id" ++
          (postgres.qcall t "SELECT COUNT FROM vehicles" ++
           postgres.qcall t "SELECT vehicles page")) ++
         postgres.qcall t "DELETE FROM customers") := by
      simp [service.CustomerService.DeleteCustomer, service.wrapErr,
        hGet, hListEval, hmz, hDelRepo]
      intro h
      simp [postgres.sortByLe] at h
    refine ⟨by rw [hDel], ?_, ?_⟩
    · rw [hDel]
      intro r hr hand
      have h2 := (List.mem_filter.mp hr).2
      simp [hand.1, hand.2] at h2
    · rw [hDel]
      have hfind2 : ((db.customers.filter
          (fun r => !(r.id == cid && r.tenantId == t))).filter
          (fun r => r.tenantId == t)).find? (fun r => r.id == cid) =
          none := by
        apply List.find?_eq_none.mpr
        intro r hr
        have h1 := List.mem_filter.mp hr
        have h2 := (List.mem_filter.mp h1.1).2
        have h3 := h1.2
        simp at h2 h3 ⊢
        rcases h2 with h2 | h2
        · exact h2
        · exact absurd h3 h2
      rw [customerGetByID_missing t
        { db with customers := (db.customers.filter
            (fun r => !(r.id == cid && r.tenantId == t))) } cid hfind2]

/-- Witness for C5 at concrete databases: with one active vehicle the
customer survives deactivated; with no vehicles the row is gone and
get reports not-found. -/
theorem c5_delete_customer_witness :
    ((service.CustomerService.DeleteCustomer (some "T1") 7 9
        c5SoftDb).1 = Except.ok () ∧
      ∃ r, (postgres.customerRepository.GetByID (some "T1") 7
              (service.CustomerService.DeleteCustomer (some "T1") 7 9
                c5SoftDb).2.1).1 = Except.ok r ∧
           r.isActive = false ∧ r.id = 7 ∧ r.updatedAt = 9) ∧
    ((service.CustomerService.DeleteCustomer (some "T1") 7 9
        c5HardDb).1 = Except.ok () ∧
      (postgres.customerRepository.GetByID (some "T1") 7
        (service.CustomerService.DeleteCustomer (some "T1") 7 9
          c5HardDb).2.1).1 =
        Except.error ("customer with ID " ++ toString (7 : Id) ++
          " not found")) := by
  have hsoft := (c5_delete_customer_soft_vs_hard "T1" c5SoftDb 7 9
    sampleCustomer (by decide) (by decide)).1
    ⟨sampleVehicle, by decide, rfl, rfl⟩
  have hhard := (c5_delete_customer_soft_vs_hard "T1" c5HardDb 7 9
    sampleCustomer (by decide) (by decide)).2
    (by intro v hv; simp [postgres.Db.visibleVehicles, c5HardDb] at hv)
  exact ⟨⟨hsoft.1, hsoft.2⟩, ⟨hhard.1, hhard.2.2⟩⟩

/-- Witness for C4: a concrete failing body is rolled back, a concrete
successful body is committed. -/
theorem c4_transaction_with_tenant_witness :
    postgres.TransactionWithTenant
        { setFails := false, beginFails := false, queryFails := false
          commitFails := false } "t1"
        (postgres.FnOutcome.err "boom" [postgres.SStmt.sql "INSERT"]) =
      (postgres.TxResult.err "boom",
       [postgres.SStmt.beginTx, postgres.SStmt.set "t1",
        postgres.SStmt.sql "INSERT", postgres.SStmt.rollback]) ∧
    postgres.TransactionWithTenant
        { setFails := false, beginFails := false, queryFails := false
          commitFails := false } "t1"
        (postgres.FnOutcome.ok [postgres.SStmt.sql "INSERT"]) =
      (postgres.TxResult.ok,
       [postgres.SStmt.beginTx, postgres.SStmt.set "t1",
        postgres.SStmt.sql "INSERT", postgres.SStmt.commit]) := by
  have h := c4_transaction_with_tenant
    { setFails := false, beginFails := false, queryFails := false
      commitFails := false } "t1" rfl rfl
  exact ⟨h.2.1 "boom" [postgres.SStmt.sql "INSERT"],
         h.1 [postgres.SStmt.sql "INSERT"]⟩

end Encomos
